import Mathlib

/-!
Verification of the control plane of a LangGraph-based agent
(`src/agent/lg_nodes.py`, `src/agent/tools.py`, `src/agent/tool_registry.py`,
`src/agent/retrieve.py`, `src/agent/lg_graph.py`, `main.py`).

Shallow embedding conventions:
* Python dicts decoded from JSON are modelled by the `Json` inductive;
  `json.loads` is an external library call, so the parse outcome of each
  LLM reply (`Option Json`, `none` = parse exception) is supplied by the
  environment together with the raw text.
* `ast.parse(s, mode="eval")` is likewise external; its outcome
  (`Option Ast`, `none` = `SyntaxError`) is supplied as an oracle function.
  The `Ast` type carries exactly the node shapes `_eval_node` discriminates.
* Machine floats are modelled by `PyFloat` (an exact rational plus the
  special values `inf`, `ninf`, `nan`).  Arithmetic in `_eval_node` is
  modelled exactly on the rationals; float rounding/overflow is not
  modelled (a floating-point limitation of the embedding, noted where
  relevant).  Python `bool` is a subclass of `int`, which the embedding
  reflects where the source relies on it.
* An uncaught Python exception is an `Except.error (e : PyErr)` result.
* A LangGraph node returns a partial update (`Update`); `applyU` merges it
  into the state with last-writer-wins semantics per field, exactly as
  LangGraph does for fields that carry no reducer annotation.
* Log strings are built with the same shapes as the source f-strings;
  renderings of nested Python values inside log text are abbreviated
  (the control flow never inspects log text).
-/

namespace Agent

/-- Decoded JSON values (what `json.loads` can return). -/
inductive Json where
  | null : Json
  | bool (b : Bool) : Json
  | num (q : ℚ) : Json
  | str (s : String) : Json
  | arr (xs : List Json) : Json
  | obj (kvs : List (String × Json)) : Json
deriving Repr

/-- A Python dict decoded from JSON. -/
abbrev PyDict := List (String × Json)

/-- Python truthiness of a decoded JSON value (`if x:`). -/
def pyTruthy : Json → Bool
  | .null => false
  | .bool b => b
  | .num q => q ≠ 0
  | .str s => s ≠ ""
  | .arr xs => !xs.isEmpty
  | .obj kvs => !kvs.isEmpty

/-- `d.get(k, dflt)` on a decoded dict. -/
def dictGetD (kvs : PyDict) (k : String) (dflt : Json) : Json :=
  match kvs.find? (fun kv => kv.1 = k) with
  | some kv => kv.2
  | none => dflt

/-- Python `j == s` for a string literal `s` (false for non-strings). -/
def jeqStr (j : Json) (s : String) : Bool :=
  match j with
  | .str t => t = s
  | _ => false

/-- Python `str.strip()` (whitespace strip), written structurally over the
character list so it evaluates inside the kernel. -/
def pyStrip (s : String) : String :=
  String.mk (((s.data.dropWhile Char.isWhitespace).reverse.dropWhile
    Char.isWhitespace).reverse)

/-- Crude rendering of a decoded value inside an f-string (log text only;
the control flow never inspects it). -/
def jsonRender : Json → String
  | .null => "None"
  | .bool b => if b then "True" else "False"
  | .num q => toString q
  | .str s => s
  | .arr _ => "[...]"
  | .obj _ => "\x7b...\x7d"

/-- An uncaught Python exception escaping a node. -/
inductive PyErr where
  | attributeError (msg : String) : PyErr
  | typeError (msg : String) : PyErr
deriving Repr, DecidableEq

/-- A raw LLM reply (`llm.invoke(...)`) together with the outcome of
`json.loads` on its stripped text.  `json.loads` is an external library
call, so its outcome is supplied by the environment; `parsed = none`
models a raised JSON decode error. -/
structure Reply where
  raw : String
  parsed : Option Json

/-- The reply an absent oracle entry falls back to: empty text, which
`json.loads` rejects. -/
def defaultReply : Reply := ⟨"", none⟩

/-- A retrieved knowledge document (`retrieve.py` corpus entries). -/
structure Doc where
  title : String
  text : String
deriving Repr, DecidableEq

/-- A Python float: exact rational value or one of the IEEE specials.
Arithmetic in the embedding stays exact on `finite`; overflow to `inf`
is not modelled. -/
inductive PyFloat where
  | finite (q : ℚ) : PyFloat
  | inf : PyFloat
  | ninf : PyFloat
  | nan : PyFloat
deriving Repr, DecidableEq

/-- A value a tool handler can place under `output["result"]`. -/
inductive PyVal where
  | num (f : PyFloat) : PyVal
  | str (s : String) : PyVal
deriving Repr, DecidableEq

/-- The `output` field of a tool result: `{"result": ...}` or `{"error": ...}`. -/
inductive TOut where
  | result (v : PyVal) : TOut
  | error (msg : String) : TOut
deriving Repr, DecidableEq

/-- A `ToolResult` record (`{tool, input, output, ok}`).  The `tool` field
is `Json` because the exception path stores the raw requested name,
which an LLM-crafted request can make non-string. -/
structure ToolResult where
  tool : Json
  input : Json
  output : TOut
  ok : Bool
deriving Repr

/-- `math.isnan` on the float model. -/
def PyFloat.isNan : PyFloat → Bool
  | .nan => true
  | _ => false

/-- `math.isinf` on the float model. -/
def PyFloat.isInf : PyFloat → Bool
  | .inf => true
  | .ninf => true
  | _ => false

end Agent

namespace Agent

/-! ## `tools.py` — the calculator and the web-lookup stub -/

/-- The binary operator node kinds `_eval_node` discriminates
(`_ALLOWED_BINOPS` plus everything else). -/
inductive BOp where
  | add | sub | mult | div | pow | mod
  | otherBin
deriving Repr, DecidableEq

/-- The unary operator node kinds (`_ALLOWED_UNARYOPS` plus the rest). -/
inductive UOp where
  | uadd | usub
  | otherUn
deriving Repr, DecidableEq

/-- A constant appearing in an `ast.Constant` node.  Python `bool` is a
subclass of `int`, so `isinstance(node.value, (int, float))` accepts
booleans; the embedding keeps them distinct so that can be stated. -/
inductive PyConst where
  | int (n : ℤ) : PyConst
  | float (q : ℚ) : PyConst
  | bool (b : Bool) : PyConst
  | str (s : String) : PyConst
  | noneConst : PyConst
deriving Repr, DecidableEq

/-- The Python expression AST, at the granularity `_eval_node` inspects.
`other` stands for every node kind the function rejects
(`ast.Name`, `ast.Call`, comparisons, ...). -/
inductive Ast where
  | constant (c : PyConst) : Ast
  | expression (body : Ast) : Ast
  | binop (op : BOp) (l r : Ast) : Ast
  | unaryop (op : UOp) (e : Ast) : Ast
  | other : Ast
deriving Repr, DecidableEq

/-- `isinstance(node.value, (int, float))` — true for ints, floats and
booleans (Python `bool` is an `int`). -/
def PyConst.isNumeric : PyConst → Bool
  | .int _ => true
  | .float _ => true
  | .bool _ => true
  | _ => false

/-- `float(node.value)` on a numeric constant. -/
def PyConst.toRat : PyConst → ℚ
  | .int n => (n : ℚ)
  | .float q => q
  | .bool b => if b then 1 else 0
  | _ => 0

/-- `op.truediv` on floats: raises `ZeroDivisionError` on a zero divisor,
exact otherwise (float rounding is not modelled). -/
def pyDiv (a b : ℚ) : Except String ℚ :=
  if b = 0 then .error "float division by zero" else .ok (a / b)

/-- `op.mod` on floats: Python float `%` keeps the sign of the divisor
(`a - b * floor(a / b)`); raises on a zero divisor. -/
def pyMod (a b : ℚ) : Except String ℚ :=
  if b = 0 then .error "float modulo" else .ok (a - b * ⌊a / b⌋)

/-- `op.pow` on floats.  Integral exponents are computed exactly
(`0.0 ** negative` raises `ZeroDivisionError`); a non-integral exponent
is a float-rounding computation the rational model cannot express, so it
is reported as an error here — the repository never evaluates one, and
no claim depends on its value. -/
def pyPow (a b : ℚ) : Except String ℚ :=
  if b.den = 1 then
    if 0 ≤ b.num then .ok (a ^ b.num.toNat)
    else if a = 0 then .error "0.0 cannot be raised to a negative power"
    else .ok (a ^ b.num)
  else .error "non-integral exponent not modelled"

/-- `_eval_node` (`tools.py` lines 88-127): recursively evaluate the AST,
accepting only numeric constants, the six allowed binary operators and
unary plus/minus; anything else raises `ValueError("Unsupported
expression")`.  Errors raised by the operator functions themselves
(`ZeroDivisionError`, ...) propagate. -/
def evalNode : Ast → Except String ℚ
  | .constant c => if c.isNumeric then .ok c.toRat else .error "Unsupported expression"
  | .expression body => evalNode body
  | .binop op l r => do
      match op with
      | .otherBin => .error "Unsupported expression"
      | _ =>
        let a ← evalNode l
        let b ← evalNode r
        match op with
        | .add => .ok (a + b)
        | .sub => .ok (a - b)
        | .mult => .ok (a * b)
        | .div => pyDiv a b
        | .pow => pyPow a b
        | .mod => pyMod a b
        | .otherBin => .error "Unsupported expression"
  | .unaryop op e => do
      match op with
      | .otherUn => .error "Unsupported expression"
      | _ =>
        let v ← evalNode e
        match op with
        | .uadd => .ok v
        | .usub => .ok (-v)
        | .otherUn => .error "Unsupported expression"
  | .other => .error "Unsupported expression"

/-- The outcome of `ast.parse(s, mode="eval")`: the `Expression` body, or
`none` for a `SyntaxError`.  Parsing is a Python-library call external to
the repository, so the outcome is supplied as an oracle. -/
abbrev AstParse := String → Option Ast

/-- `calculator(expression)` (`tools.py` lines 130-164): parse and
evaluate inside a catch-all `try`, returning the standard result dict;
never raises.  A non-string argument makes `ast.parse` raise `TypeError`,
which the same `try` catches. -/
def calculator (aparse : AstParse) (v : Json) : ToolResult :=
  let inputD : Json := .obj [("expression", v)]
  match v with
  | .str s =>
    match aparse s with
    | none =>
        ⟨.str "calculator", inputD, .error "invalid syntax", false⟩
    | some body =>
        match evalNode (.expression body) with
        | .ok q => ⟨.str "calculator", inputD, .result (.num (.finite q)), true⟩
        | .error e => ⟨.str "calculator", inputD, .error e, false⟩
  | _ => ⟨.str "calculator", inputD, .error "expected str, bytes or os.PathLike object", false⟩

/-- `web_lookup_stub(query)` (`tools.py` lines 196-214): always succeeds
with a fixed placeholder string. -/
def webLookupStub (v : Json) : ToolResult :=
  ⟨.str "web_lookup_stub", .obj [("query", v)],
    .result (.str "Stubbed web lookup: no network enabled."), true⟩

/-! ## `tool_registry.py` — registry and catalog -/

/-- Tool cost / risk levels. -/
inductive Risk where
  | low | medium | high
deriving Repr, DecidableEq

/-- `risk_rank` / `cost_rank` in `lg_nodes.py` (`{"low": 0, "medium": 1,
"high": 2}`). -/
def riskRank : Risk → Nat
  | .low => 0
  | .medium => 1
  | .high => 2

/-- A registry entry (`ToolSpec` minus the handler closure and the JSON
`input_schema`, neither of which the control flow inspects; the handler
is dispatched by name in `callHandler`). -/
structure ToolSpec where
  name : String
  description : String
  cost : Risk
  risk : Risk
  latency_ms : Nat
deriving Repr, DecidableEq

/-- The calculator registration (`tools.py` lines 168-187). -/
def calculatorSpec : ToolSpec :=
  ⟨"calculator", "Evaluate a math expression and return the numeric result.",
    .low, .low, 5⟩

/-- The web-lookup stub registration (`tools.py` lines 218-237). -/
def webLookupSpec : ToolSpec :=
  ⟨"web_lookup_stub", "Look up information on the web (stubbed; returns placeholder text).",
    .high, .high, 2000⟩

/-- `TOOL_REGISTRY` after `tools.py` is imported (registration order). -/
def TOOL_REGISTRY : List ToolSpec := [calculatorSpec, webLookupSpec]

/-- `get_tool(name)` (`tool_registry.py` lines 95-112): raises `KeyError`
for an unregistered (or non-string) name; `str(e)` of a `KeyError` is the
repr of its message, hence the surrounding quotes in the error text. -/
def getToolE (name : Json) : Except String ToolSpec :=
  match name with
  | .str s =>
      match TOOL_REGISTRY.find? (fun t => t.name = s) with
      | some t => .ok t
      | none => .error ("\x27Tool not found: " ++ s ++ "\x27")
  | _ => .error ("\x27Tool not found: " ++ jsonRender name ++ "\x27")

/-- `list_tools()` (`tool_registry.py` lines 115-140): every spec without
its handler, sorted by name.  With the two registered tools the
registration order is already alphabetical. -/
def listTools : List ToolSpec := TOOL_REGISTRY

/-- `spec["handler"](**args)` for the registered tools: keyword-argument
binding raises `TypeError` unless `args` is a dict whose keys are exactly
the handler's parameters (`expression` / `query`). -/
def callHandler (aparse : AstParse) (name : String) (args : Json) : Except String ToolResult :=
  match args with
  | .obj kvs =>
      if name = "calculator" then
        match kvs with
        | [("expression", v)] => .ok (calculator aparse v)
        | _ => .error "calculator() received unexpected or missing keyword arguments"
      else if name = "web_lookup_stub" then
        match kvs with
        | [("query", v)] => .ok (webLookupStub v)
        | _ => .error "web_lookup_stub() received unexpected or missing keyword arguments"
      else .error "unknown handler"
  | _ => .error "argument after ** must be a mapping"

end Agent

namespace Agent

/-! ## `lg_state.py` — the run state, and LangGraph's update merge -/

/-- `LGState` (`lg_state.py`), restricted to the fields the nodes read or
write (`events`, `run_id` and `started_at` are trace metadata no node in
`lg_nodes.py` touches). -/
structure RState where
  question : String
  next : Json
  step_count : Nat
  max_steps : Nat
  reasoning_steps : List String
  knowledge : List Doc
  retrieve_count : Nat
  retrieve_cap : Nat
  tool_request : Option PyDict
  repaired_tool_request : Option PyDict
  tool_results : List ToolResult
  tool_fail_count : Nat
  tool_fail_cap : Nat
  last_error : Option String
  think_count : Nat
  memory_summary : String
  memory_every : Nat
  last_memory_at : Nat
  max_tool_risk : Risk
  plan : List String
  tool_calls : Nat
  tool_call_cap : Nat
  tool_latency_ms : Nat
  tool_latency_cap_ms : Nat
deriving Repr

instance : Inhabited RState :=
  ⟨⟨"", .null, 0, 0, [], [], 0, 0, none, none, [], 0, 0, none, 0, "", 0, 0,
    .low, [], 0, 0, 0, 0⟩⟩

/-- A partial state update returned by a node.  `none` means the key is
absent from the returned dict.  The keys a node never writes (`question`,
the caps, `max_steps`, `max_tool_risk`, `memory_every`) have no slot: no
node in `lg_nodes.py` ever returns them. -/
structure Update where
  next : Option Json := none
  step_count : Option Nat := none
  reasoning_steps : Option (List String) := none
  plan : Option (List String) := none
  tool_request : Option (Option PyDict) := none
  repaired_tool_request : Option (Option PyDict) := none
  tool_results : Option (List ToolResult) := none
  tool_fail_count : Option Nat := none
  last_error : Option (Option String) := none
  tool_calls : Option Nat := none
  tool_latency_ms : Option Nat := none
  retrieve_count : Option Nat := none
  knowledge : Option (List Doc) := none
  think_count : Option Nat := none
  memory_summary : Option String := none
  last_memory_at : Option Nat := none
deriving Repr

/-- The empty update (`return {}`). -/
def Update.empty : Update := {}

/-- LangGraph's merge for plain (reducer-free) fields: last writer wins
per key. -/
def applyU (s : RState) (u : Update) : RState :=
  { s with
    next := u.next.getD s.next
    step_count := u.step_count.getD s.step_count
    reasoning_steps := u.reasoning_steps.getD s.reasoning_steps
    plan := u.plan.getD s.plan
    tool_request := u.tool_request.getD s.tool_request
    repaired_tool_request := u.repaired_tool_request.getD s.repaired_tool_request
    tool_results := u.tool_results.getD s.tool_results
    tool_fail_count := u.tool_fail_count.getD s.tool_fail_count
    last_error := u.last_error.getD s.last_error
    tool_calls := u.tool_calls.getD s.tool_calls
    tool_latency_ms := u.tool_latency_ms.getD s.tool_latency_ms
    retrieve_count := u.retrieve_count.getD s.retrieve_count
    knowledge := u.knowledge.getD s.knowledge
    think_count := u.think_count.getD s.think_count
    memory_summary := u.memory_summary.getD s.memory_summary
    last_memory_at := u.last_memory_at.getD s.last_memory_at }

theorem applyU_empty (s : RState) : applyU s Update.empty = s := rfl

/-- Truthiness of `state.get("last_error")` (`None` and `""` are falsy). -/
def errTruthy : Option String → Bool
  | some e => e ≠ ""
  | none => false

/-- Truthiness of `state.get("repaired_tool_request")` (`None` and the
empty dict are falsy). -/
def repairedTruthy (s : RState) : Bool :=
  match s.repaired_tool_request with
  | some d => !d.isEmpty
  | none => false

end Agent

namespace Agent

/-! ## `lg_nodes.py` — memory, think, retrieve, tool, answer nodes -/

/-- `memory_node` (`lg_nodes.py` lines 105-146).  The trigger guard
`len(steps) - state["last_memory_at"] < state["memory_every"]` is Python
integer arithmetic, which can go negative, hence the cast through `Int`.
The LLM summary text is supplied by the environment (`summaryReply`). -/
def memoryNode (s : RState) (summaryReply : String) : Update :=
  let steps := s.reasoning_steps
  if (steps.length : Int) - (s.last_memory_at : Int) < (s.memory_every : Int) then
    Update.empty
  else
    let old := if steps.length > 4 then steps.take (steps.length - 4) else []
    if old.isEmpty then
      { last_memory_at := some steps.length }
    else
      { memory_summary := some (pyStrip summaryReply)
        last_memory_at := some steps.length
        reasoning_steps := some (steps.drop (steps.length - 4)) }

/-- `think_node` (`lg_nodes.py` lines 151-206).  In repair mode the
`json.loads` call sits inside a `try`, but the subsequent
`repaired.get("tool")` does not: a reply that is valid JSON but not an
object makes that attribute access raise `AttributeError`, which escapes
the node. -/
def thinkNode (s : RState) (r : Reply) : Except PyErr Update :=
  if errTruthy s.last_error then
    let lastErr := s.last_error.getD ""
    let repaired : Json :=
      match r.parsed with
      | some j => j
      | none => .obj [("tool", .str ""), ("args", .obj [])]
    match repaired with
    | .obj kvs =>
        .ok { think_count := some (s.think_count + 1)
              reasoning_steps := some (s.reasoning_steps ++
                ["THINK (repair) last_error=" ++ lastErr])
              repaired_tool_request :=
                some (if pyTruthy (dictGetD kvs "tool" .null) then some kvs else none) }
    | _ => .error (.attributeError "object has no attribute get")
  else
    .ok { think_count := some (s.think_count + 1)
          reasoning_steps := some (s.reasoning_steps ++ [pyStrip r.raw]) }

/-- The hardcoded demo corpus (`retrieve.py` lines 48-61). -/
def CORPUS : List Doc :=
  [⟨"LangGraph", "LangGraph helps build stateful, multi-step LLM apps using graph-based control flow and explicit state."⟩,
   ⟨"LangChain", "LangChain provides building blocks for LLM apps (prompts, chains, retrievers, tools)."⟩,
   ⟨"Agent pattern", "A practical agent is a goal-directed state machine where an LLM helps choose transitions and code enforces guardrails."⟩]

/-- `tok in text` — substring containment, written over character lists so
it evaluates structurally. -/
def containsTok (text tok : String) : Bool :=
  (List.range (text.data.length + 1)).any (fun i => tok.data.isPrefixOf (text.data.drop i))

/-- Stable insertion into a score-descending list (equal scores keep
their original order), matching Python's stable `sort(reverse=True)` by
score. -/
def insertDesc (x : Nat × Doc) : List (Nat × Doc) → List (Nat × Doc)
  | [] => [x]
  | y :: ys => if y.1 < x.1 then x :: y :: ys else y :: insertDesc x ys

/-- `retrieve(query, k)` (`retrieve.py` lines 64-100): keyword-overlap
scoring over the corpus, stable sort by score descending, keep matches
with a positive score, truncate to `k`. -/
def retrieve (query : String) (k : Nat) : List Doc :=
  let q := query.toLower
  let toks := q.split Char.isWhitespace
  let scored := CORPUS.map (fun doc =>
    let text := (doc.title ++ " " ++ doc.text).toLower
    (toks.countP (fun tok => tok ≠ "" && containsTok text tok), doc))
  let sorted := scored.foldl (fun acc x => insertDesc x acc) []
  ((sorted.filter (fun p => 0 < p.1)).map Prod.snd).take k

/-- `retrieve_node` (`lg_nodes.py` lines 211-235). -/
def retrieveNode (s : RState) : Update :=
  let docs := retrieve s.question 2
  { retrieve_count := some (s.retrieve_count + 1)
    knowledge := some (s.knowledge ++ docs)
    reasoning_steps := some (s.reasoning_steps ++
      ["RETRIEVE got " ++ toString docs.length ++ " docs"]) }

/-- The outcome of the `try` block of `tool_node` around registry lookup
and handler invocation: either a caught exception (its `str(e)` text), or
the dict the handler returned. -/
inductive Attempt where
  | raised (msg : String) : Attempt
  | returned (r : ToolResult) : Attempt

/-- Registry lookup plus handler call, as performed inside the `try` of
`tool_node` (`lg_nodes.py` lines 296-300). -/
def runAttempt (aparse : AstParse) (tool_name : Json) (args : Json) : Attempt :=
  match getToolE tool_name with
  | .error e => .raised e
  | .ok sp =>
      match callHandler aparse sp.name args with
      | .error e => .raised e
      | .ok r => .returned r

/-- `type(val).__name__` for the semantic-validation error message. -/
def valTypeName : Option PyVal → String
  | none => "NoneType"
  | some (.str _) => "str"
  | some (.num _) => "float"

/-- `result.get("output", {}).get("result", None)`. -/
def resultVal (r : ToolResult) : Option PyVal :=
  match r.output with
  | .result v => some v
  | .error _ => none

/-- `result.get("output", {}).get("error", "Tool returned ok=False")`. -/
def errOf (r : ToolResult) : String :=
  match r.output with
  | .error m => m
  | .result _ => "Tool returned ok=False"

/-- The failure/success classification of one tool attempt
(`lg_nodes.py` lines 287-335): the synthesized no-request failure, the
caught-exception conversion, the handler-declared failure, and the
calculator semantic validation; yields `(result, failed, last_error)`. -/
def classifyAttempt (tool_name args : Json) (att : Json → Json → Attempt) :
    ToolResult × Bool × Option String :=
  if !pyTruthy tool_name then
    (⟨.str "(none)", args, .error "No tool requested", false⟩, true, some "No tool requested")
  else
    match att tool_name args with
    | .raised e => (⟨tool_name, args, .error e, false⟩, true, some e)
    | .returned r =>
        if !r.ok then (r, true, some (errOf r))
        else if jeqStr tool_name "calculator" then
          match resultVal r with
          | some (.num f) =>
              if f.isNan || f.isInf then
                let m := "Tool output invalid: NaN/Inf"
                ({ r with ok := false, output := .error m }, true, some m)
              else (r, false, none)
          | v =>
              let m := "Tool output invalid: expected number, got " ++ valTypeName v
              ({ r with ok := false, output := .error m }, true, some m)
        else (r, false, none)

/-- `req.get("tool")` on the current request (`None` when absent). -/
def reqToolName (s : RState) : Json :=
  dictGetD (s.tool_request.getD []) "tool" .null

/-- `req.get("args", {}) or {}` on the current request. -/
def reqArgs (s : RState) : Json :=
  let a := dictGetD (s.tool_request.getD []) "args" (.obj [])
  if pyTruthy a then a else .obj []

/-- `tool_node` (`lg_nodes.py` lines 240-360) with the `try`-block body
abstracted as an `Attempt`, so the classification logic can be stated for
every possible handler behaviour.  Returns the full update dict the node
builds: result append, log, request clearing, `last_error`, failure
counter, budget counters. -/
def toolNodeGo (s : RState) (att : Json → Json → Attempt) : Update :=
  let tool_name : Json := reqToolName s
  let args : Json := reqArgs s
  -- (result, failed, last_error)
  let rfe : ToolResult × Bool × Option String := classifyAttempt tool_name args att
  let result := rfe.1
  let failed := rfe.2.1
  let last_error := rfe.2.2
  let base : Update :=
    { tool_results := some (s.tool_results ++ [result])
      reasoning_steps := some (s.reasoning_steps ++
        ["TOOL ran: " ++ jsonRender result.tool ++ " (ok=" ++
          (if result.ok then "True" else "False") ++ ")"])
      tool_request := some none
      last_error := some last_error
      tool_fail_count := some (if failed then s.tool_fail_count + 1 else 0)
      tool_calls := some (s.tool_calls + 1) }
  -- latency block (lines 352-358): a second registry lookup in its own try
  if pyTruthy tool_name && !failed then
    match getToolE tool_name with
    | .ok sp => { base with tool_latency_ms := some (s.tool_latency_ms + sp.latency_ms) }
    | .error _ => base
  else base

/-- `tool_node` against the real registry and handlers. -/
def toolNode (aparse : AstParse) (s : RState) : Update :=
  toolNodeGo s (runAttempt aparse)

/-- `answer_node` (`lg_nodes.py` lines 365-417): strict evidence priority
— last successful calculator result, then latest knowledge, then a
fixed honest-uncertainty message. -/
def answerNode (s : RState) : Update :=
  match s.tool_results.getLast? with
  | some last =>
      if jeqStr last.tool "calculator" && last.ok then
        { reasoning_steps := some (s.reasoning_steps ++
            ["ANSWER: The result is " ++
              (match resultVal last with
               | some (.num (.finite q)) => toString q
               | some (.num _) => "inf"
               | some (.str t) => t
               | none => "None") ++ "."])
          next := some (.str "ANSWER") }
      else answerFromKnowledge s
  | none => answerFromKnowledge s
where
  answerFromKnowledge (s : RState) : Update :=
    match s.knowledge.getLast? with
    | some d =>
        { reasoning_steps := some (s.reasoning_steps ++ ["ANSWER: " ++ d.text])
          next := some (.str "ANSWER") }
    | none =>
        { reasoning_steps := some (s.reasoning_steps ++
            ["ANSWER: I don\x27t have enough evidence to answer confidently."])
          next := some (.str "ANSWER") }

end Agent

namespace Agent

/-! ## `lg_nodes.py` — the reason node (control plane) -/

/-- The fast-path arithmetic-question test (`lg_nodes.py` line 476, and
repeated verbatim at lines 671 and 809): only digits, whitespace and
`+-*/().`, with at least one digit.  `str.isdigit` is modelled at ASCII
granularity. -/
def isMathExpr (q : String) : Bool :=
  q ≠ "" &&
  q.data.all (fun c => c.isDigit || [' ', '+', '-', '*', '/', '(', ')', '.'].contains c) &&
  q.data.any Char.isDigit

/-- `tool_calls >= tool_call_cap or tool_latency_ms >= tool_latency_cap_ms`
(`lg_nodes.py` lines 497-500, 637-640). -/
def budgetExhausted (s : RState) : Bool :=
  s.tool_call_cap ≤ s.tool_calls || s.tool_latency_cap_ms ≤ s.tool_latency_ms

/-- The `[step N] ` prefix of the reason node's log lines. -/
def stepTag (n : Nat) : String := "[step " ++ toString n ++ "] "

/-- The budget-exhaustion message interpolation shared by lines 506-508
and 644-646. -/
def budgetMsgTail (s : RState) : String :=
  ": tool budget exhausted (calls=" ++ toString s.tool_calls ++ "/" ++
    toString s.tool_call_cap ++ ", latency=" ++ toString s.tool_latency_ms ++
    "/" ++ toString s.tool_latency_cap_ms ++ "ms)"

/-- The fixed terminal apology appended when the tool budget is exhausted
without evidence (lines 509 and 650). -/
def budgetApology : String :=
  "ANSWER: I couldn\x27t complete this request because the tool budget has been exhausted."

/-- Python list repr of a plan, as interpolated into log lines. -/
def renderPlan (plan : List String) : String :=
  "[" ++ String.intercalate ", " (plan.map (fun p => "\x27" ++ p ++ "\x27")) ++ "]"

/-- The calculator tool request built by the fast paths
(`{"tool": "calculator", "args": {"expression": q}}`). -/
def calcRequest (q : String) : PyDict :=
  [("tool", .str "calculator"), ("args", .obj [("expression", .str q)])]

/-- The second half of the fast path (`lg_nodes.py` lines 496-517),
reached when no calculator result exists yet: stop on an exhausted
budget, otherwise issue the calculator request directly. -/
def rFastPathBudget (s : RState) (step : Nat) (q : String) : Update :=
  if budgetExhausted s then
    { step_count := some step, next := some (.str "STOP")
      reasoning_steps := some (s.reasoning_steps ++
        [stepTag step ++ "STOP" ++ budgetMsgTail s, budgetApology]) }
  else
    { step_count := some step, next := some (.str "TOOL")
      tool_request := some (some (calcRequest q))
      reasoning_steps := some (s.reasoning_steps ++
        [stepTag step ++ "REASON → TOOL (calculator)"]) }

/-- Fast-path arithmetic detection (`lg_nodes.py` lines 475-517): answer
or stop if a calculator result exists, otherwise check the budget and
issue the calculator request. -/
def rFastPath (s : RState) (step : Nat) : Option Update :=
  let q := (pyStrip s.question)
  if isMathExpr q then
    some (match s.tool_results.getLast? with
    | some last =>
        if jeqStr last.tool "calculator" then
          if last.ok then
            { step_count := some step, next := some (.str "ANSWER")
              reasoning_steps := some (s.reasoning_steps ++
                [stepTag step ++ "REASON → ANSWER (calculator done)"]) }
          else
            { step_count := some step, next := some (.str "STOP")
              reasoning_steps := some (s.reasoning_steps ++
                [stepTag step ++ "STOP: calculator error"]) }
        else rFastPathBudget s step q
    | none => rFastPathBudget s step q)
  else none

/-- Consecutive-failure guardrail (`lg_nodes.py` lines 526-538): at the
cap, answer best-effort when evidence exists, otherwise stop. -/
def rFailCap (s : RState) (step : Nat) : Option Update :=
  if s.tool_fail_cap ≤ s.tool_fail_count then
    let has_evidence := !s.knowledge.isEmpty || !s.tool_results.isEmpty
    some (if has_evidence then
      { step_count := some step, next := some (.str "ANSWER")
        reasoning_steps := some (s.reasoning_steps ++
          [stepTag step ++ "REASON → ANSWER (best-effort after tool failures)"]) }
    else
      { step_count := some step, next := some (.str "STOP")
        reasoning_steps := some (s.reasoning_steps ++
          [stepTag step ++ "STOP: tool_fail_cap reached"]) })
  else none

/-- Failure recovery (`lg_nodes.py` lines 541-557): consume a pending
repaired request (note: no budget check on this path), else route to
THINK for repair. -/
def rRecovery (s : RState) (step : Nat) : Option Update :=
  if 0 < s.tool_fail_count then
    let thinkUpd : Update :=
      { step_count := some step, next := some (.str "THINK")
        reasoning_steps := some (s.reasoning_steps ++
          [stepTag step ++ "REASON → THINK (tool failed, attempting repair)"]) }
    some (match s.repaired_tool_request with
    | some d =>
        if !d.isEmpty then
          { step_count := some step, next := some (.str "TOOL")
            tool_request := some (some d)
            repaired_tool_request := some none
            reasoning_steps := some (s.reasoning_steps ++
              [stepTag step ++ "REASON → TOOL (repaired)"]) }
        else thinkUpd
    | none => thinkUpd)
  else none

/-- Python iteration over a decoded JSON value (`for p in plan`): lists
yield elements, strings yield one-character strings, dicts yield keys,
numbers and booleans raise `TypeError`. -/
def pyIter : Json → Except PyErr (List Json)
  | .arr xs => .ok xs
  | .str s => .ok (s.data.map (fun c => Json.str (String.mk [c])))
  | .obj kvs => .ok (kvs.map (fun kv => Json.str kv.1))
  | .null => .error (.typeError "NoneType object is not iterable")
  | .bool _ => .error (.typeError "bool object is not iterable")
  | .num _ => .error (.typeError "int object is not iterable")

/-- The valid plan-step names (`lg_nodes.py` line 599). -/
def validSteps : List String := ["THINK", "RETRIEVE", "TOOL", "ANSWER"]

/-- Plan parsing (`lg_nodes.py` lines 588-600): `json.loads` and
`obj.get("plan", []) or []` sit inside a `try`, but the filtering
comprehension does not — iterating a truthy non-iterable `plan` value
(e.g. decoded from `{"plan": 5}`) raises `TypeError` out of the node. -/
def parsePlan (r : Reply) : Except PyErr (List String) := do
  let planJ : Json :=
    match r.parsed with
    | none => .arr []
    | some j =>
        match j with
        | .obj kvs =>
            let v := dictGetD kvs "plan" (.arr [])
            if pyTruthy v then v else .arr []
        | _ => .arr []
  let items ← pyIter planJ
  return (items.filterMap (fun p =>
    match p with
    | .str t => if validSteps.contains t then some t else none
    | _ => none)).take 3

/-- The update stored when plan creation succeeds (`lg_nodes.py` lines
602-608) — note: it does not set `next`. -/
def planCreatedUpd (s : RState) (step : Nat) (plan : List String) : Update :=
  { step_count := some step
    plan := some plan
    reasoning_steps := some (s.reasoning_steps ++
      [stepTag step ++ "PLAN created: " ++ renderPlan plan]) }

/-- Plan invalidation (`lg_nodes.py` lines 615-656).  The first two
branches drop the plan without setting `next`; only the budget branch
also routes. -/
def planInvalidation (s : RState) (step : Nat) : Option Update :=
  match s.plan with
  | [] => none
  | h :: _ =>
    if h = "RETRIEVE" && s.retrieve_cap ≤ s.retrieve_count then
      some { step_count := some step, plan := some []
             reasoning_steps := some (s.reasoning_steps ++
               [stepTag step ++ "PLAN invalidated: retrieve_cap reached"]) }
    else if h = "TOOL" && 0 < s.tool_fail_count then
      some { step_count := some step, plan := some []
             reasoning_steps := some (s.reasoning_steps ++
               [stepTag step ++ "PLAN invalidated: tool failure recovery active"]) }
    else if h = "TOOL" && budgetExhausted s then
      let has_evidence := !s.knowledge.isEmpty || !s.tool_results.isEmpty
      let budget_msg := stepTag step ++
        (if has_evidence then "ANSWER" else "STOP") ++ budgetMsgTail s
      some { step_count := some step
             next := some (.str (if has_evidence then "ANSWER" else "STOP"))
             plan := some []
             reasoning_steps := some (s.reasoning_steps ++ [budget_msg] ++
               (if has_evidence then [] else [budgetApology])) }
    else none

/-- Tool-choice parsing (`lg_nodes.py` lines 728-737): everything sits
inside the `try`, so a malformed or non-object reply degrades to
`("", {})` instead of raising. -/
def parseToolChoice (r : Reply) : Json × Json :=
  match r.parsed with
  | some (.obj kvs) =>
      let tn := let v := dictGetD kvs "tool" (.str ""); if pyTruthy v then v else .str ""
      let ar := let v := dictGetD kvs "args" (.obj []); if pyTruthy v then v else .obj []
      (tn, ar)
  | _ => (.str "", .obj [])

/-- Ascending lexicographic order on `(cost_rank, latency_ms, name)`
(`lg_nodes.py` lines 699-705). -/
def catalogKeyLe (a b : ToolSpec) : Bool :=
  riskRank a.cost < riskRank b.cost ||
  (riskRank a.cost = riskRank b.cost &&
    (a.latency_ms < b.latency_ms ||
     (a.latency_ms = b.latency_ms && !(b.name < a.name))))

/-- Stable insertion for the catalog sort (Python `list.sort` is stable). -/
def insertAsc (x : ToolSpec) : List ToolSpec → List ToolSpec
  | [] => [x]
  | y :: ys => if catalogKeyLe y x then y :: insertAsc x ys else x :: y :: ys

/-- The policy-filtered, sorted tool catalog the LLM prompt shows
(`lg_nodes.py` lines 682-706 and 824-832).  The catalog only shapes the
prompt text: the code never checks the LLM's chosen tool against it. -/
def toolCatalog (s : RState) : List ToolSpec :=
  let filtered := listTools.filter
    (fun t => riskRank t.risk ≤ riskRank s.max_tool_risk)
  filtered.foldl (fun acc x => insertAsc x acc) []

/-- Plan execution (`lg_nodes.py` lines 661-767), called with a nonempty
surviving plan.  Returns the update and the number of LLM calls made
(1 exactly on the tool-selection path).  The reply models the
tool-selection call's outcome. -/
def planExecution (s : RState) (step : Nat) (r : Reply) : Update × Nat :=
  match s.plan with
  | [] => (Update.empty, 0)
  | h :: rest =>
    if h = "TOOL" then
      let q := (pyStrip s.question)
      if isMathExpr q then
        ({ step_count := some step, next := some (.str "TOOL")
           plan := some rest
           tool_request := some (some (calcRequest q))
           reasoning_steps := some (s.reasoning_steps ++
             [stepTag step ++ "PLAN step → TOOL (calculator) (remaining=" ++
               renderPlan rest ++ ")"]) }, 0)
      else
        let choice := parseToolChoice r
        if !pyTruthy choice.1 then
          ({ step_count := some step, next := some (.str "THINK")
             plan := some rest
             reasoning_steps := some (s.reasoning_steps ++
               [stepTag step ++ "PLAN step TOOL failed → THINK (remaining=" ++
                 renderPlan rest ++ ")"]) }, 1)
        else
          ({ step_count := some step, next := some (.str "TOOL")
             plan := some rest
             tool_request := some (some [("tool", choice.1), ("args", choice.2)])
             reasoning_steps := some (s.reasoning_steps ++
               [stepTag step ++ "PLAN step → TOOL (" ++ jsonRender choice.1 ++
                 ") (remaining=" ++ renderPlan rest ++ ")"]) }, 1)
    else
      ({ step_count := some step, next := some (.str h)
         plan := some rest
         reasoning_steps := some (s.reasoning_steps ++
           [stepTag step ++ "PLAN step → " ++ h ++ " (remaining=" ++
             renderPlan rest ++ ")"]) }, 0)

/-- The stale-repair cleanup update (`lg_nodes.py` line 791) — the only
return of the reason node that sets neither `next` nor `step_count`. -/
def staleCleanupUpd : Update := { repaired_tool_request := some none }

/-- Guardrails, stale-repair cleanup, opportunistic success, and the
residual arithmetic check (`lg_nodes.py` lines 773-815), reached only
with an empty plan after a failed plan creation. -/
def rGuardrails (s : RState) (step : Nat) : Option Update :=
  let q := (pyStrip s.question)
  let mathCheck : Option Update :=
    if isMathExpr q then
      some { step_count := some step, next := some (.str "TOOL")
             tool_request := some (some (calcRequest q))
             reasoning_steps := some (s.reasoning_steps ++
               [stepTag step ++ "REASON → TOOL (calculator)"]) }
    else none
  if s.max_steps ≤ step then
    some { step_count := some step, next := some (.str "STOP")
           reasoning_steps := some (s.reasoning_steps ++
             [stepTag step ++ "STOP: max_steps reached"]) }
  else if s.retrieve_cap ≤ s.retrieve_count && s.knowledge.isEmpty then
    some { step_count := some step, next := some (.str "STOP")
           reasoning_steps := some (s.reasoning_steps ++
             [stepTag step ++ "STOP: retrieve_cap reached without evidence"]) }
  else if !errTruthy s.last_error && repairedTruthy s then
    some staleCleanupUpd
  else
    match s.tool_results.getLast? with
    | some last =>
        if last.ok then
          some { step_count := some step, next := some (.str "ANSWER")
                 reasoning_steps := some (s.reasoning_steps ++
                   [stepTag step ++ "REASON → ANSWER (tool succeeded)"]) }
        else mathCheck
    | none => mathCheck

/-- The LLM fallback decision (`lg_nodes.py` lines 835-871).
`json.loads` sits inside a `try` with a deterministic RETRIEVE/STOP
fallback, but `decision.get("next", "STOP")` does not: a valid-JSON
non-object reply raises `AttributeError` out of the node.  The routing
value is copied verbatim from the reply. -/
def rFallback (s : RState) (step : Nat) (r : Reply) : Except PyErr Update :=
  match r.parsed with
  | none =>
      .ok { step_count := some step
            next := some (.str (if s.knowledge.isEmpty &&
                s.retrieve_count < s.retrieve_cap then "RETRIEVE" else "STOP"))
            reasoning_steps := some (s.reasoning_steps ++
              [stepTag step ++ "REASON fallback"]) }
  | some j =>
      match j with
      | .obj kvs =>
          let nxt := dictGetD kvs "next" (.str "STOP")
          .ok { step_count := some step
                next := some nxt
                reasoning_steps := some (s.reasoning_steps ++
                  [stepTag step ++ "REASON → " ++ jsonRender nxt])
                tool_request :=
                  if jeqStr nxt "TOOL" then
                    some (some [("tool", dictGetD kvs "tool" (.str "")),
                                ("args", let a := dictGetD kvs "args" (.obj [])
                                         if pyTruthy a then a else .obj [])])
                  else none }
      | _ => .error (.attributeError "object has no attribute get")

/-- `reason_node` (`lg_nodes.py` lines 422-871).  The LLM is
nondeterministic, so the replies to its `llm.invoke` calls are supplied
as a list consumed in call order; the returned `Nat` counts the calls
actually made.  `Except.error` models an uncaught exception escaping the
node. -/
def reasonNode (s : RState) (rs : List Reply) : Except PyErr (Update × Nat) :=
  let step := s.step_count + 1
  match rFastPath s step with
  | some u => .ok (u, 0)
  | none =>
  match rFailCap s step with
  | some u => .ok (u, 0)
  | none =>
  match rRecovery s step with
  | some u => .ok (u, 0)
  | none =>
  if s.plan.isEmpty then
    match parsePlan (rs.getD 0 defaultReply) with
    | .error e => .error e
    | .ok plan =>
        if !plan.isEmpty then .ok (planCreatedUpd s step plan, 1)
        else
          match rGuardrails s step with
          | some u => .ok (u, 1)
          | none =>
              match rFallback s step (rs.getD 1 defaultReply) with
              | .error e => .error e
              | .ok u => .ok (u, 2)
  else
    match planInvalidation s step with
    | some u => .ok (u, 0)
    | none => .ok (planExecution s step (rs.getD 0 defaultReply))

end Agent

namespace Agent

/-! ## `lg_graph.py` / `main.py` — graph wiring, driver, reachability -/

/-- The environment of one turn: the replies to the reason node's LLM
calls, the THINK reply, the MEMORY summary text, and the `ast.parse`
oracle used by tool execution. -/
structure TOracle where
  reason : List Reply
  think : Reply
  memorySummary : String
  aparse : AstParse

/-- Dispatch on `state["next"]` after a reason invocation
(`lg_graph.py` lines 90-118): THINK is always followed by MEMORY, then
control returns to REASON; RETRIEVE and TOOL return directly; ANSWER and
STOP leave the loop (`none` — no further reason invocation; a THINK
crash also aborts the run). -/
def dispatchExec (m : RState) (o : TOracle) : Option RState :=
  if jeqStr m.next "THINK" then
    match thinkNode m o.think with
    | .error _ => none
    | .ok tu =>
        let m2 := applyU m tu
        some (applyU m2 (memoryNode m2 o.memorySummary))
  else if jeqStr m.next "RETRIEVE" then
    some (applyU m (retrieveNode m))
  else if jeqStr m.next "TOOL" then
    some (applyU m (toolNode o.aparse m))
  else none

/-- One full turn of the outer loop: a reason invocation, the merge of
its update, then dispatch of the routed phase.  `none` when the run
crashes or leaves the loop. -/
def turnExec (s : RState) (o : TOracle) : Option RState :=
  match reasonNode s o.reason with
  | .error _ => none
  | .ok (u, _) => dispatchExec (applyU s u) o

/-- Iterated turns. -/
def runStar (s : RState) : List TOracle → Option RState
  | [] => some s
  | o :: os =>
      match turnExec s o with
      | none => none
      | some s' => runStar s' os

/-- A valid initial state: the shape `main.py` builds (entry routing
THINK, empty logs and counters) under the boundary contract of the spec
(all counters zeroed, all caps positive). -/
def validInit (s : RState) : Prop :=
  s.next = .str "THINK" ∧
  s.step_count = 0 ∧ 1 ≤ s.max_steps ∧
  s.reasoning_steps = [] ∧ s.knowledge = [] ∧
  s.retrieve_count = 0 ∧ 1 ≤ s.retrieve_cap ∧
  s.tool_request = none ∧ s.repaired_tool_request = none ∧
  s.tool_results = [] ∧
  s.tool_fail_count = 0 ∧ 1 ≤ s.tool_fail_cap ∧
  s.last_error = none ∧ s.think_count = 0 ∧
  s.memory_summary = "" ∧ 1 ≤ s.memory_every ∧ s.last_memory_at = 0 ∧
  s.plan = [] ∧
  s.tool_calls = 0 ∧ 1 ≤ s.tool_call_cap ∧
  s.tool_latency_ms = 0 ∧ 1 ≤ s.tool_latency_cap_ms

/-- The states at which the reason node can be invoked: valid initial
states and everything reachable from them through whole turns, under any
LLM/parse environment. -/
inductive Reach : RState → Prop where
  | init (s : RState) : validInit s → Reach s
  | step (s s' : RState) (o : TOracle) : Reach s → turnExec s o = some s' → Reach s'

/-- `Reach` transported along an executed run. -/
theorem reach_runStar {s s' : RState} (os : List TOracle)
    (hs : Reach s) (h : runStar s os = some s') : Reach s' := by
  induction os generalizing s with
  | nil => simp [runStar] at h; exact h ▸ hs
  | cons o os ih =>
      simp only [runStar] at h
      cases hturn : turnExec s o with
      | none => rw [hturn] at h; exact absurd h (by simp)
      | some s1 => rw [hturn] at h; exact ih (Reach.step s s1 o hs hturn) h

/-- `True` iff one of the first `os.length` reason invocations routes to
a terminal phase (ANSWER or STOP).  A crash or an unroutable `next`
value counts as not reaching a terminal phase. -/
def reachesTerminalWithin (s : RState) : List TOracle → Bool
  | [] => false
  | o :: os =>
      match reasonNode s o.reason with
      | .error _ => false
      | .ok (u, _) =>
          let m := applyU s u
          if jeqStr m.next "ANSWER" || jeqStr m.next "STOP" then true
          else
            match dispatchExec m o with
            | none => false
            | some s' => reachesTerminalWithin s' os

end Agent

namespace Agent

/-! ## Characterization lemmas for the reason node's stages -/

theorem rFastPathBudget_shape (s : RState) (st : Nat) (q : String) :
    (rFastPathBudget s st q).step_count = some st ∧
    (rFastPathBudget s st q).next.isSome := by
  unfold rFastPathBudget
  by_cases hb : budgetExhausted s <;> simp [hb]

theorem rFastPathBudget_budget_next (s : RState) (st : Nat) (q : String)
    (hb : budgetExhausted s = true) :
    (rFastPathBudget s st q).next = some (Json.str "STOP") := by
  unfold rFastPathBudget
  simp [hb]

theorem rFastPath_shape {s : RState} {st : Nat} {u : Update}
    (h : rFastPath s st = some u) :
    u.step_count = some st ∧ u.next.isSome := by
  unfold rFastPath at h
  by_cases hm : isMathExpr (pyStrip s.question)
  · simp only [hm, if_true, Option.some.injEq] at h
    subst h
    rcases hl : s.tool_results.getLast? with _ | last
    · simp only [hl]; exact rFastPathBudget_shape s st _
    · simp only [hl]
      by_cases hc : jeqStr last.tool "calculator"
      · by_cases ho : last.ok <;> simp [hc, ho]
      · simp only [hc, Bool.false_eq_true, if_false]
        exact rFastPathBudget_shape s st _
  · simp [hm] at h

theorem rFastPath_none_math {s : RState} {st : Nat}
    (h : rFastPath s st = none) : isMathExpr (pyStrip s.question) = false := by
  unfold rFastPath at h
  by_cases hm : isMathExpr (pyStrip s.question)
  · simp [hm] at h
  · simpa using hm

theorem rFastPath_budget_next {s : RState} {st : Nat} {u : Update}
    (h : rFastPath s st = some u) (hb : budgetExhausted s = true) :
    u.next ≠ some (Json.str "TOOL") := by
  unfold rFastPath at h
  by_cases hm : isMathExpr (pyStrip s.question)
  · simp only [hm, if_true, Option.some.injEq] at h
    subst h
    rcases hl : s.tool_results.getLast? with _ | last
    · simp only [hl, rFastPathBudget_budget_next s st _ hb]; simp [Json.str.injEq]
    · simp only [hl]
      by_cases hc : jeqStr last.tool "calculator"
      · by_cases ho : last.ok <;> simp [hc, ho]
      · simp only [hc, Bool.false_eq_true, if_false,
          rFastPathBudget_budget_next s st _ hb]
        simp [Json.str.injEq]
  · simp [hm] at h

theorem rFailCap_shape {s : RState} {st : Nat} {u : Update}
    (h : rFailCap s st = some u) :
    u.step_count = some st ∧ u.next.isSome ∧ u.next ≠ some (Json.str "TOOL") := by
  unfold rFailCap at h
  by_cases hc : s.tool_fail_cap ≤ s.tool_fail_count
  · simp only [hc, if_true, Option.some.injEq] at h
    subst h
    by_cases he : (!s.knowledge.isEmpty || !s.tool_results.isEmpty) = true <;>
      simp [he, Json.str.injEq]
  · simp [hc] at h

theorem rFailCap_none {s : RState} {st : Nat}
    (h : rFailCap s st = none) : s.tool_fail_count < s.tool_fail_cap := by
  unfold rFailCap at h
  by_cases hc : s.tool_fail_cap ≤ s.tool_fail_count
  · simp [hc] at h
  · omega

theorem rRecovery_shape {s : RState} {st : Nat} {u : Update}
    (h : rRecovery s st = some u) :
    u.step_count = some st ∧ u.next.isSome ∧ 0 < s.tool_fail_count ∧
      (u.next = some (Json.str "TOOL") → repairedTruthy s = true) := by
  unfold rRecovery at h
  by_cases hf : 0 < s.tool_fail_count
  · simp only [hf, if_true, Option.some.injEq] at h
    subst h
    rcases hr : s.repaired_tool_request with _ | d
    · simp [hr, hf, Json.str.injEq]
    · simp only [hr]
      by_cases hd : (!d.isEmpty) = true
      · simp [hd, hf, repairedTruthy, hr]
      · simp [hd, hf, Json.str.injEq]
  · simp [hf] at h

theorem rRecovery_none {s : RState} {st : Nat}
    (h : rRecovery s st = none) : s.tool_fail_count = 0 := by
  unfold rRecovery at h
  by_cases hf : 0 < s.tool_fail_count
  · simp [hf] at h
  · omega

end Agent

namespace Agent

theorem planCreatedUpd_shape (s : RState) (st : Nat) (p : List String) :
    (planCreatedUpd s st p).step_count = some st ∧
    (planCreatedUpd s st p).next = none ∧
    (planCreatedUpd s st p).plan = some p := ⟨rfl, rfl, rfl⟩

theorem planInvalidation_shape {s : RState} {st : Nat} {u : Update}
    (h : planInvalidation s st = some u) :
    u.step_count = some st ∧ u.plan = some [] ∧
      (u.next = none ∨ u.next = some (Json.str "ANSWER") ∨
        u.next = some (Json.str "STOP")) := by
  unfold planInvalidation at h
  rcases hp : s.plan with _ | ⟨hd, rest⟩
  · simp [hp] at h
  · rw [hp] at h
    by_cases h1 : (hd = "RETRIEVE" && decide (s.retrieve_cap ≤ s.retrieve_count)) = true
    · simp only [h1, if_true, Option.some.injEq] at h
      subst h; simp
    · by_cases h2 : (hd = "TOOL" && decide (0 < s.tool_fail_count)) = true
      · simp only [h1, h2, Bool.false_eq_true, if_false, if_true, Option.some.injEq] at h
        subst h; simp
      · by_cases h3 : (hd = "TOOL" && budgetExhausted s) = true
        · simp only [h1, h2, h3, Bool.false_eq_true, if_false, if_true,
            Option.some.injEq] at h
          subst h
          by_cases he : (!s.knowledge.isEmpty || !s.tool_results.isEmpty) = true <;>
            simp [he]
        · simp [h1, h2, h3] at h

theorem planInvalidation_none_toolhead {s : RState} {st : Nat} {hd : String}
    {rest : List String} (hp : s.plan = hd :: rest)
    (h : planInvalidation s st = none) (hb : budgetExhausted s = true) :
    hd ≠ "TOOL" := by
  intro hhd
  unfold planInvalidation at h
  rw [hp, hhd] at h
  by_cases hf : 0 < s.tool_fail_count <;> simp [hf, hb] at h

theorem planExecution_shape {s : RState} (st : Nat) (r : Reply) {hd : String}
    {rest : List String} (hp : s.plan = hd :: rest) :
    (planExecution s st r).1.step_count = some st ∧
    (planExecution s st r).1.next.isSome ∧ (planExecution s st r).2 ≤ 1 := by
  unfold planExecution
  rw [hp]
  by_cases h1 : hd = "TOOL"
  · simp only [h1, if_true]
    by_cases hm : isMathExpr (pyStrip s.question)
    · simp [hm]
    · by_cases hc : (!pyTruthy (parseToolChoice r).1) = true <;> simp [hm, hc]
  · simp [h1]

theorem planExecution_nontool_next {s : RState} (st : Nat) (r : Reply)
    {hd : String} {rest : List String} (hp : s.plan = hd :: rest)
    (h1 : hd ≠ "TOOL") :
    (planExecution s st r).1.next = some (Json.str hd) := by
  unfold planExecution
  rw [hp]
  simp [h1]

theorem rGuardrails_shape {s : RState} {st : Nat} {u : Update}
    (h : rGuardrails s st = some u) (hm : isMathExpr (pyStrip s.question) = false) :
    (u.step_count = some st ∧
      (u.next = some (Json.str "STOP") ∨ u.next = some (Json.str "ANSWER"))) ∨
    u = staleCleanupUpd := by
  unfold rGuardrails at h
  simp only [hm, Bool.false_eq_true, if_false] at h
  by_cases g1 : s.max_steps ≤ st
  · simp [g1] at h; subst h; simp
  · by_cases g2 : (decide (s.retrieve_cap ≤ s.retrieve_count) && s.knowledge.isEmpty) = true
    · simp [g1, g2] at h; subst h; simp
    · by_cases g3 : (!errTruthy s.last_error && repairedTruthy s) = true
      · simp [g1, g2, g3] at h; subst h; simp
      · simp only [g1, g2, g3] at h
        rcases hl : s.tool_results.getLast? with _ | last
        · simp [hl] at h
        · rw [hl] at h
          by_cases ho : last.ok
          · simp [g1, g2, g3, ho] at h; subst h; simp
          · simp [g1, g2, g3, ho] at h

theorem rGuardrails_none_last {s : RState} {st : Nat}
    (h : rGuardrails s st = none) (hm : isMathExpr (pyStrip s.question) = false) :
    s.tool_results.getLast? = none ∨
      ∃ last, s.tool_results.getLast? = some last ∧ last.ok = false := by
  unfold rGuardrails at h
  simp only [hm, Bool.false_eq_true, if_false] at h
  by_cases g1 : s.max_steps ≤ st
  · simp [g1] at h
  · by_cases g2 : (decide (s.retrieve_cap ≤ s.retrieve_count) && s.knowledge.isEmpty) = true
    · simp [g1, g2] at h
    · by_cases g3 : (!errTruthy s.last_error && repairedTruthy s) = true
      · simp [g1, g2, g3] at h
      · rcases hl : s.tool_results.getLast? with _ | last
        · exact Or.inl rfl
        · rw [hl] at h
          by_cases ho : last.ok
          · simp [g1, g2, g3, ho] at h
          · exact Or.inr ⟨last, rfl, by simpa using ho⟩

theorem rFallback_shape {s : RState} {st : Nat} {r : Reply} {u : Update}
    (h : rFallback s st r = .ok u) :
    u.step_count = some st ∧ u.next.isSome := by
  unfold rFallback at h
  rcases hr : r.parsed with _ | j
  · rw [hr] at h; cases h; exact ⟨rfl, rfl⟩
  · rw [hr] at h
    cases j <;> simp only [] at h <;> first
      | (cases h; exact ⟨rfl, rfl⟩)
      | cases h

end Agent

namespace Agent

/-! ## Which fields the reason node can write -/

/-- The fields of an update relevant to the tool budget/failure
invariants: the reason node never returns any of them. -/
def toolFieldsNone (u : Update) : Prop :=
  u.tool_results = none ∧ u.tool_fail_count = none ∧
  u.tool_calls = none ∧ u.tool_latency_ms = none

theorem rFastPath_untouched {s : RState} {st : Nat} {u : Update}
    (h : rFastPath s st = some u) : toolFieldsNone u := by
  unfold rFastPath at h
  by_cases hm : isMathExpr (pyStrip s.question)
  · simp only [hm, if_true, Option.some.injEq] at h
    subst h
    rcases hl : s.tool_results.getLast? with _ | last
    · simp only [hl]
      unfold rFastPathBudget; by_cases hb : budgetExhausted s <;>
        simp [hb, toolFieldsNone]
    · simp only [hl]
      by_cases hc : jeqStr last.tool "calculator"
      · by_cases ho : last.ok <;> simp [hc, ho, toolFieldsNone]
      · simp only [hc, Bool.false_eq_true, if_false]
        unfold rFastPathBudget; by_cases hb : budgetExhausted s <;>
          simp [hb, toolFieldsNone]
  · simp [hm] at h

theorem rFailCap_untouched {s : RState} {st : Nat} {u : Update}
    (h : rFailCap s st = some u) : toolFieldsNone u := by
  unfold rFailCap at h
  by_cases hc : s.tool_fail_cap ≤ s.tool_fail_count
  · simp only [hc, if_true, Option.some.injEq] at h
    subst h
    by_cases he : (!s.knowledge.isEmpty || !s.tool_results.isEmpty) = true <;>
      simp [he, toolFieldsNone]
  · simp [hc] at h

theorem rRecovery_untouched {s : RState} {st : Nat} {u : Update}
    (h : rRecovery s st = some u) : toolFieldsNone u := by
  unfold rRecovery at h
  by_cases hf : 0 < s.tool_fail_count
  · simp only [hf, if_true, Option.some.injEq] at h
    subst h
    rcases hr : s.repaired_tool_request with _ | d
    · simp [toolFieldsNone]
    · by_cases hd : (!d.isEmpty) = true <;> simp [hd, toolFieldsNone]
  · simp [hf] at h

theorem planCreatedUpd_untouched (s : RState) (st : Nat) (p : List String) :
    toolFieldsNone (planCreatedUpd s st p) := ⟨rfl, rfl, rfl, rfl⟩

theorem planInvalidation_untouched {s : RState} {st : Nat} {u : Update}
    (h : planInvalidation s st = some u) : toolFieldsNone u := by
  unfold planInvalidation at h
  rcases hp : s.plan with _ | ⟨hd, rest⟩
  · simp [hp] at h
  · rw [hp] at h
    by_cases h1 : (hd = "RETRIEVE" && decide (s.retrieve_cap ≤ s.retrieve_count)) = true
    · simp only [h1, if_true, Option.some.injEq] at h; subst h; exact ⟨rfl, rfl, rfl, rfl⟩
    · by_cases h2 : (hd = "TOOL" && decide (0 < s.tool_fail_count)) = true
      · simp only [h1, h2, Bool.false_eq_true, if_false, if_true, Option.some.injEq] at h
        subst h; exact ⟨rfl, rfl, rfl, rfl⟩
      · by_cases h3 : (hd = "TOOL" && budgetExhausted s) = true
        · simp only [h1, h2, h3, Bool.false_eq_true, if_false, if_true,
            Option.some.injEq] at h
          subst h; exact ⟨rfl, rfl, rfl, rfl⟩
        · simp [h1, h2, h3] at h

theorem planExecution_untouched (s : RState) (st : Nat) (r : Reply) :
    toolFieldsNone (planExecution s st r).1 := by
  unfold planExecution
  rcases s.plan with _ | ⟨hd, rest⟩
  · exact ⟨rfl, rfl, rfl, rfl⟩
  · by_cases h1 : hd = "TOOL"
    · simp only [h1, if_true]
      by_cases hm : isMathExpr (pyStrip s.question)
      · simp [hm, toolFieldsNone]
      · by_cases hc : (!pyTruthy (parseToolChoice r).1) = true <;>
          simp [hm, hc, toolFieldsNone]
    · simp [h1, toolFieldsNone]

theorem rGuardrails_untouched {s : RState} {st : Nat} {u : Update}
    (h : rGuardrails s st = some u) : toolFieldsNone u := by
  unfold rGuardrails at h
  by_cases g1 : s.max_steps ≤ st
  · simp [g1] at h; subst h; exact ⟨rfl, rfl, rfl, rfl⟩
  · by_cases g2 : (decide (s.retrieve_cap ≤ s.retrieve_count) && s.knowledge.isEmpty) = true
    · simp [g1, g2] at h; subst h; exact ⟨rfl, rfl, rfl, rfl⟩
    · by_cases g3 : (!errTruthy s.last_error && repairedTruthy s) = true
      · simp [g1, g2, g3] at h; subst h; exact ⟨rfl, rfl, rfl, rfl⟩
      · simp only [g1, g2, g3] at h
        rcases hl : s.tool_results.getLast? with _ | last
        · rw [hl] at h
          by_cases hm : isMathExpr (pyStrip s.question) <;> simp [g1, g2, g3, hm] at h
          subst h; exact ⟨rfl, rfl, rfl, rfl⟩
        · rw [hl] at h
          by_cases ho : last.ok
          · simp [g1, g2, g3, ho] at h; subst h; exact ⟨rfl, rfl, rfl, rfl⟩
          · by_cases hm : isMathExpr (pyStrip s.question) <;> simp [g1, g2, g3, ho, hm] at h
            subst h; exact ⟨rfl, rfl, rfl, rfl⟩

theorem rFallback_untouched {s : RState} {st : Nat} {r : Reply} {u : Update}
    (h : rFallback s st r = .ok u) : toolFieldsNone u := by
  unfold rFallback at h
  rcases hr : r.parsed with _ | j
  · rw [hr] at h; cases h; exact ⟨rfl, rfl, rfl, rfl⟩
  · rw [hr] at h
    cases j <;> simp only [] at h <;> first
      | (cases h; exact ⟨rfl, rfl, rfl, rfl⟩)
      | cases h

/-- The reason node never writes `tool_results`, `tool_fail_count`,
`tool_calls` or `tool_latency_ms` (no return in `reason_node` carries
those keys). -/
theorem reason_untouched {s : RState} {rs : List Reply} {u : Update} {n : Nat}
    (h : reasonNode s rs = .ok (u, n)) : toolFieldsNone u := by
  simp only [reasonNode] at h
  rcases h1 : rFastPath s (s.step_count + 1) with _ | u1 <;> rw [h1] at h
  · rcases h2 : rFailCap s (s.step_count + 1) with _ | u2 <;> rw [h2] at h
    · rcases h3 : rRecovery s (s.step_count + 1) with _ | u3 <;> rw [h3] at h
      · by_cases hpe : s.plan.isEmpty
        · simp only [hpe, if_true] at h
          rcases hpp : parsePlan (rs.getD 0 defaultReply) with e | plan <;> rw [hpp] at h
          · cases h
          · by_cases hplane : (!plan.isEmpty) = true
            · simp only [hplane, if_true, Except.ok.injEq, Prod.mk.injEq] at h
              exact h.1 ▸ planCreatedUpd_untouched s (s.step_count + 1) plan
            · simp only [hplane, Bool.false_eq_true, if_false] at h
              rcases hg : rGuardrails s (s.step_count + 1) with _ | u4 <;> rw [hg] at h
              · rcases hfb : rFallback s (s.step_count + 1) (rs.getD 1 defaultReply)
                  with e | u5 <;> rw [hfb] at h
                · cases h
                · simp only [Except.ok.injEq, Prod.mk.injEq] at h
                  exact h.1 ▸ rFallback_untouched hfb
              · simp only [Except.ok.injEq, Prod.mk.injEq] at h
                exact h.1 ▸ rGuardrails_untouched hg
        · simp only [hpe, Bool.false_eq_true, if_false] at h
          rcases hi : planInvalidation s (s.step_count + 1) with _ | u6 <;> rw [hi] at h
          · simp only [Except.ok.injEq] at h
            have hx := planExecution_untouched s (s.step_count + 1) (rs.getD 0 defaultReply)
            rw [h] at hx
            exact hx
          · simp only [Except.ok.injEq, Prod.mk.injEq] at h
            exact h.1 ▸ planInvalidation_untouched hi
      · simp only [Except.ok.injEq, Prod.mk.injEq] at h
        exact h.1 ▸ rRecovery_untouched h3
    · simp only [Except.ok.injEq, Prod.mk.injEq] at h
      exact h.1 ▸ rFailCap_untouched h2
  · simp only [Except.ok.injEq, Prod.mk.injEq] at h
    exact h.1 ▸ rFastPath_untouched h1

end Agent

namespace Agent

/-! ## Update-shape and call-count characterizations of the reason node -/

/-- Every completed reason invocation falls into one of three shapes:
(a) step counter advanced and `next` set; (b) step counter advanced and
the plan written (creation or the first two invalidation branches), with
`next` left unchanged; (c) the stale-repair cleanup, which sets
nothing but `repaired_tool_request = None`. -/
theorem reason_update_shape {s : RState} {rs : List Reply} {u : Update} {n : Nat}
    (h : reasonNode s rs = .ok (u, n)) :
    (u.step_count = some (s.step_count + 1) ∧ u.next.isSome) ∨
    (u.step_count = some (s.step_count + 1) ∧ u.next = none ∧ u.plan.isSome) ∨
    u = staleCleanupUpd := by
  simp only [reasonNode] at h
  rcases h1 : rFastPath s (s.step_count + 1) with _ | u1 <;> rw [h1] at h
  · rcases h2 : rFailCap s (s.step_count + 1) with _ | u2 <;> rw [h2] at h
    · rcases h3 : rRecovery s (s.step_count + 1) with _ | u3 <;> rw [h3] at h
      · by_cases hpe : s.plan.isEmpty
        · simp only [hpe, if_true] at h
          rcases hpp : parsePlan (rs.getD 0 defaultReply) with e | plan <;> rw [hpp] at h
          · cases h
          · by_cases hplane : (!plan.isEmpty) = true
            · simp only [hplane, if_true, Except.ok.injEq, Prod.mk.injEq] at h
              obtain ⟨hu, -⟩ := h
              exact Or.inr (Or.inl (hu ▸
                ⟨rfl, rfl, Option.isSome_some⟩))
            · simp only [hplane, Bool.false_eq_true, if_false] at h
              rcases hg : rGuardrails s (s.step_count + 1) with _ | u4 <;> rw [hg] at h
              · rcases hfb : rFallback s (s.step_count + 1) (rs.getD 1 defaultReply)
                  with e | u5 <;> rw [hfb] at h
                · cases h
                · simp only [Except.ok.injEq, Prod.mk.injEq] at h
                  exact Or.inl (h.1 ▸ rFallback_shape hfb)
              · simp only [Except.ok.injEq, Prod.mk.injEq] at h
                rcases rGuardrails_shape hg (rFastPath_none_math h1) with ⟨ha, hb⟩ | hstale
                · exact Or.inl (h.1 ▸ ⟨ha, by rcases hb with hb | hb <;> simp [hb]⟩)
                · exact Or.inr (Or.inr (h.1 ▸ hstale))
        · simp only [hpe, Bool.false_eq_true, if_false] at h
          rcases hi : planInvalidation s (s.step_count + 1) with _ | u6 <;> rw [hi] at h
          · simp only [Except.ok.injEq] at h
            rcases hplan : s.plan with _ | ⟨hd, rest⟩
            · rw [hplan] at hpe; simp at hpe
            · have hx := planExecution_shape (s.step_count + 1)
                (rs.getD 0 defaultReply) hplan
              rw [h] at hx
              exact Or.inl ⟨hx.1, hx.2.1⟩
          · simp only [Except.ok.injEq, Prod.mk.injEq] at h
            rcases planInvalidation_shape hi with ⟨ha, hp, hnx⟩
            rcases hnx with hnx | hnx | hnx
            · exact Or.inr (Or.inl (h.1 ▸ ⟨ha, hnx, by simp [hp]⟩))
            · exact Or.inl (h.1 ▸ ⟨ha, by simp [hnx]⟩)
            · exact Or.inl (h.1 ▸ ⟨ha, by simp [hnx]⟩)
      · simp only [Except.ok.injEq, Prod.mk.injEq] at h
        obtain ⟨ha, hb, -⟩ := rRecovery_shape h3
        exact Or.inl (h.1 ▸ ⟨ha, hb⟩)
    · simp only [Except.ok.injEq, Prod.mk.injEq] at h
      obtain ⟨ha, hb, -⟩ := rFailCap_shape h2
      exact Or.inl (h.1 ▸ ⟨ha, hb⟩)
  · simp only [Except.ok.injEq, Prod.mk.injEq] at h
    exact Or.inl (h.1 ▸ rFastPath_shape h1)

/-- A completed reason invocation makes at most two LLM calls, and makes
a second one only when the plan was empty and plan creation produced an
empty (or filtered-to-empty) plan. -/
theorem reason_call_count {s : RState} {rs : List Reply} {u : Update} {n : Nat}
    (h : reasonNode s rs = .ok (u, n)) :
    n ≤ 2 ∧ (n = 2 → s.plan = [] ∧
      parsePlan (rs.getD 0 defaultReply) = .ok []) := by
  simp only [reasonNode] at h
  rcases h1 : rFastPath s (s.step_count + 1) with _ | u1 <;> rw [h1] at h
  · rcases h2 : rFailCap s (s.step_count + 1) with _ | u2 <;> rw [h2] at h
    · rcases h3 : rRecovery s (s.step_count + 1) with _ | u3 <;> rw [h3] at h
      · by_cases hpe : s.plan.isEmpty
        · simp only [hpe, if_true] at h
          rcases hpp : parsePlan (rs.getD 0 defaultReply) with e | plan <;> rw [hpp] at h
          · cases h
          · by_cases hplane : (!plan.isEmpty) = true
            · simp only [hplane, if_true, Except.ok.injEq, Prod.mk.injEq] at h
              omega
            · simp only [hplane, Bool.false_eq_true, if_false] at h
              have hplannil : plan = [] := by
                simpa using hplane
              rcases hg : rGuardrails s (s.step_count + 1) with _ | u4 <;> rw [hg] at h
              · rcases hfb : rFallback s (s.step_count + 1) (rs.getD 1 defaultReply)
                  with e | u5 <;> rw [hfb] at h
                · cases h
                · simp only [Except.ok.injEq, Prod.mk.injEq] at h
                  refine ⟨by omega, fun _ => ⟨by simpa using hpe, ?_⟩⟩
                  exact congrArg Except.ok hplannil
              · simp only [Except.ok.injEq, Prod.mk.injEq] at h
                omega
        · simp only [hpe, Bool.false_eq_true, if_false] at h
          rcases hi : planInvalidation s (s.step_count + 1) with _ | u6 <;> rw [hi] at h
          · simp only [Except.ok.injEq] at h
            rcases hplan : s.plan with _ | ⟨hd, rest⟩
            · rw [hplan] at hpe; simp at hpe
            · have hx := planExecution_shape (s.step_count + 1)
                (rs.getD 0 defaultReply) hplan
              rw [h] at hx
              exact ⟨by omega, fun hn => absurd hn (by omega)⟩
          · simp only [Except.ok.injEq, Prod.mk.injEq] at h
            omega
      · simp only [Except.ok.injEq, Prod.mk.injEq] at h
        omega
    · simp only [Except.ok.injEq, Prod.mk.injEq] at h
      omega
  · simp only [Except.ok.injEq, Prod.mk.injEq] at h
    omega

end Agent

namespace Agent

/-! ## Run invariants along reachable states -/

theorem thinkNode_untouched {s : RState} {r : Reply} {u : Update}
    (h : thinkNode s r = .ok u) : toolFieldsNone u := by
  unfold thinkNode at h
  by_cases he : errTruthy s.last_error
  · simp only [he, if_true] at h
    rcases hr : r.parsed with _ | j <;> rw [hr] at h
    · cases h; exact ⟨rfl, rfl, rfl, rfl⟩
    · cases j <;> simp only [] at h <;> first
        | (cases h; exact ⟨rfl, rfl, rfl, rfl⟩)
        | cases h
  · simp only [he, Bool.false_eq_true, if_false] at h
    cases h; exact ⟨rfl, rfl, rfl, rfl⟩

theorem memoryNode_untouched (s : RState) (r : String) :
    toolFieldsNone (memoryNode s r) := by
  simp only [memoryNode]
  split
  · exact ⟨rfl, rfl, rfl, rfl⟩
  · split <;> split <;> exact ⟨rfl, rfl, rfl, rfl⟩

theorem retrieveNode_untouched (s : RState) :
    toolFieldsNone (retrieveNode s) := ⟨rfl, rfl, rfl, rfl⟩

/-- Merging an update that does not carry the tool fields leaves them,
and the (never-written) caps, unchanged. -/
theorem applyU_toolFields (s : RState) {u : Update} (h : toolFieldsNone u) :
    (applyU s u).tool_results = s.tool_results ∧
    (applyU s u).tool_fail_count = s.tool_fail_count ∧
    (applyU s u).tool_calls = s.tool_calls ∧
    (applyU s u).tool_latency_ms = s.tool_latency_ms := by
  obtain ⟨a, b, c, d⟩ := h
  simp [applyU, a, b, c, d]

/-- The caps and other constant fields survive every merge: `Update` has
no slot for them because no node ever returns them. -/
theorem applyU_const (s : RState) (u : Update) :
    (applyU s u).tool_call_cap = s.tool_call_cap ∧
    (applyU s u).tool_latency_cap_ms = s.tool_latency_cap_ms ∧
    (applyU s u).tool_fail_cap = s.tool_fail_cap ∧
    (applyU s u).max_steps = s.max_steps ∧
    (applyU s u).retrieve_cap = s.retrieve_cap ∧
    (applyU s u).question = s.question ∧
    (applyU s u).max_tool_risk = s.max_tool_risk ∧
    (applyU s u).memory_every = s.memory_every :=
  ⟨rfl, rfl, rfl, rfl, rfl, rfl, rfl, rfl⟩

/-- A non-failing classification reports a result whose `ok` flag is
true. -/
theorem classifyAttempt_ok {tool_name args : Json} {att : Json → Json → Attempt}
    (h : (classifyAttempt tool_name args att).2.1 = false) :
    (classifyAttempt tool_name args att).1.ok = true := by
  unfold classifyAttempt at h ⊢
  repeat' split at h
  all_goals simp_all

/-- The tool node's update always appends exactly the classified result,
sets the failure counter accordingly, records `last_error`, clears the
request and counts the call; latency is added only on success. -/
theorem toolNodeGo_fields (s : RState) (att : Json → Json → Attempt) :
    (toolNodeGo s att).tool_results =
      some (s.tool_results ++ [(classifyAttempt (reqToolName s) (reqArgs s) att).1]) ∧
    (toolNodeGo s att).tool_fail_count =
      some (if (classifyAttempt (reqToolName s) (reqArgs s) att).2.1 then
        s.tool_fail_count + 1 else 0) ∧
    (toolNodeGo s att).tool_calls = some (s.tool_calls + 1) ∧
    (toolNodeGo s att).last_error =
      some (classifyAttempt (reqToolName s) (reqArgs s) att).2.2 ∧
    (toolNodeGo s att).tool_request = some none := by
  unfold toolNodeGo
  by_cases hl : (pyTruthy (reqToolName s) &&
      !(classifyAttempt (reqToolName s) (reqArgs s) att).2.1) = true
  · simp only [hl, if_true]
    rcases hg : getToolE (reqToolName s) with e | sp <;> simp [hg]
  · simp [hl]

/-- The tool-budget/failure invariants maintained along every run:
an empty result history means untouched budget counters, and a failed
most-recent result means an active failure count. -/
def runInv (s : RState) : Prop :=
  (s.tool_results.getLast? = none → s.tool_calls = 0 ∧ s.tool_latency_ms = 0) ∧
  (∀ r, s.tool_results.getLast? = some r → r.ok = false → 0 < s.tool_fail_count) ∧
  1 ≤ s.tool_call_cap ∧ 1 ≤ s.tool_latency_cap_ms

theorem runInv_congr {s s' : RState}
    (h1 : s'.tool_results = s.tool_results)
    (h2 : s'.tool_fail_count = s.tool_fail_count)
    (h3 : s'.tool_calls = s.tool_calls)
    (h4 : s'.tool_latency_ms = s.tool_latency_ms)
    (h5 : s'.tool_call_cap = s.tool_call_cap)
    (h6 : s'.tool_latency_cap_ms = s.tool_latency_cap_ms)
    (h : runInv s) : runInv s' := by
  unfold runInv at *
  rw [h1, h2, h3, h4, h5, h6]
  exact h

theorem validInit_runInv {s : RState} (h : validInit s) : runInv s := by
  obtain ⟨-, -, -, -, -, -, -, -, -, hres, hfail, -, -, -, -, -, -, -,
    hcalls, hcap, hlat, hlatcap⟩ := h
  refine ⟨fun _ => ⟨hcalls, hlat⟩, fun r hr _ => ?_, hcap, hlatcap⟩
  rw [hres] at hr
  simp at hr

theorem toolNode_runInv {m : RState} (att : Json → Json → Attempt)
    (hm : runInv m) : runInv (applyU m (toolNodeGo m att)) := by
  obtain ⟨hres, hfail, hcalls, herr, hreq⟩ := toolNodeGo_fields m att
  set tn := reqToolName m
  set args := reqArgs m
  obtain ⟨-, -, hcap, hlatcap⟩ := hm
  obtain ⟨c1, c2, -⟩ := applyU_const m (toolNodeGo m att)
  refine ⟨?_, ?_, by rw [c1]; exact hcap, by rw [c2]; exact hlatcap⟩
  · intro hnone
    exfalso
    have : (applyU m (toolNodeGo m att)).tool_results =
        m.tool_results ++ [(classifyAttempt tn args att).1] := by
      simp [applyU, hres]
    rw [this] at hnone
    simp [List.getLast?_concat] at hnone
  · intro r hr hok
    have hres' : (applyU m (toolNodeGo m att)).tool_results =
        m.tool_results ++ [(classifyAttempt tn args att).1] := by
      simp [applyU, hres]
    rw [hres'] at hr
    rw [List.getLast?_concat] at hr
    have hrr : r = (classifyAttempt tn args att).1 := by
      exact (Option.some.injEq _ _ ▸ hr).symm
    have hfail' : (applyU m (toolNodeGo m att)).tool_fail_count =
        (if (classifyAttempt tn args att).2.1 then m.tool_fail_count + 1 else 0) := by
      simp [applyU, hfail]
    rw [hfail']
    by_cases hf : (classifyAttempt tn args att).2.1 = true
    · simp [hf]
    · exfalso
      have := classifyAttempt_ok (by simpa using hf)
      rw [← hrr] at this
      rw [this] at hok
      cases hok
end Agent

namespace Agent

theorem turn_runInv {s s' : RState} {o : TOracle}
    (h : turnExec s o = some s') (hs : runInv s) : runInv s' := by
  unfold turnExec at h
  rcases hr : reasonNode s o.reason with e | p <;> rw [hr] at h
  · cases h
  · obtain ⟨u, n⟩ := p
    replace h : dispatchExec (applyU s u) o = some s' := h
    have hm := applyU_toolFields s (reason_untouched hr)
    set m := applyU s u with hmdef
    have hminv : runInv m := runInv_congr hm.1 hm.2.1 hm.2.2.1 hm.2.2.2 rfl rfl hs
    unfold dispatchExec at h
    by_cases h1 : jeqStr m.next "THINK"
    · simp only [h1, if_true] at h
      rcases ht : thinkNode m o.think with e | tu <;> rw [ht] at h
      · cases h
      · simp only [Option.some.injEq] at h
        subst h
        have htf := applyU_toolFields m (thinkNode_untouched ht)
        have hm2inv : runInv (applyU m tu) :=
          runInv_congr htf.1 htf.2.1 htf.2.2.1 htf.2.2.2 rfl rfl hminv
        have hmem := applyU_toolFields (applyU m tu)
          (memoryNode_untouched (applyU m tu) o.memorySummary)
        exact runInv_congr hmem.1 hmem.2.1 hmem.2.2.1 hmem.2.2.2 rfl rfl hm2inv
    · simp only [h1, Bool.false_eq_true, if_false] at h
      by_cases h2 : jeqStr m.next "RETRIEVE"
      · simp only [h2, if_true, Option.some.injEq] at h
        subst h
        have hret := applyU_toolFields m (retrieveNode_untouched m)
        exact runInv_congr hret.1 hret.2.1 hret.2.2.1 hret.2.2.2 rfl rfl hminv
      · simp only [h2, Bool.false_eq_true, if_false] at h
        by_cases h3 : jeqStr m.next "TOOL"
        · simp only [h3, if_true, Option.some.injEq] at h
          subst h
          exact toolNode_runInv (runAttempt o.aparse) hminv
        · simp [h3] at h

/-- Every reachable state satisfies the budget/failure invariants. -/
theorem reach_runInv {s : RState} (h : Reach s) : runInv s := by
  induction h with
  | init s hs => exact validInit_runInv hs
  | step s s' o hs hstep ih => exact turn_runInv hstep ih

/-- At a reachable state whose tool budget is exhausted, the only way a
completed reason invocation can route to TOOL is the failure-recovery
path: an active failure below the cap with a pending repaired request
(which the code consumes without re-checking the budget). -/
theorem reason_budget_repaired {s : RState} {rs : List Reply} {u : Update} {n : Nat}
    (hreach : Reach s) (hb : budgetExhausted s = true)
    (h : reasonNode s rs = .ok (u, n))
    (hnext : u.next = some (Json.str "TOOL")) :
    0 < s.tool_fail_count ∧ s.tool_fail_count < s.tool_fail_cap ∧
      repairedTruthy s = true := by
  obtain ⟨inv1, inv2, hcap, hlatcap⟩ := reach_runInv hreach
  simp only [reasonNode] at h
  rcases h1 : rFastPath s (s.step_count + 1) with _ | u1 <;> rw [h1] at h
  · rcases h2 : rFailCap s (s.step_count + 1) with _ | u2 <;> rw [h2] at h
    · rcases h3 : rRecovery s (s.step_count + 1) with _ | u3 <;> rw [h3] at h
      · have hf0 := rRecovery_none h3
        by_cases hpe : s.plan.isEmpty
        · simp only [hpe, if_true] at h
          rcases hpp : parsePlan (rs.getD 0 defaultReply) with e | plan <;> rw [hpp] at h
          · cases h
          · by_cases hplane : (!plan.isEmpty) = true
            · simp only [hplane, if_true, Except.ok.injEq, Prod.mk.injEq] at h
              obtain ⟨hu, -⟩ := h
              rw [← hu] at hnext
              simp [planCreatedUpd] at hnext
            · simp only [hplane, Bool.false_eq_true, if_false] at h
              rcases hg : rGuardrails s (s.step_count + 1) with _ | u4 <;> rw [hg] at h
              · exfalso
                rcases rGuardrails_none_last hg (rFastPath_none_math h1) with
                  hnone | ⟨last, hlast, hokf⟩
                · obtain ⟨hc0, hl0⟩ := inv1 hnone
                  unfold budgetExhausted at hb
                  rw [hc0, hl0] at hb
                  simp at hb
                  omega
                · have := inv2 last hlast hokf
                  omega
              · simp only [Except.ok.injEq, Prod.mk.injEq] at h
                obtain ⟨hu, -⟩ := h
                rw [← hu] at hnext
                rcases rGuardrails_shape hg (rFastPath_none_math h1) with ⟨-, hnx⟩ | hstale
                · rcases hnx with hnx | hnx <;> rw [hnx] at hnext <;> simp at hnext
                · rw [hstale] at hnext
                  simp [staleCleanupUpd] at hnext
        · simp only [hpe, Bool.false_eq_true, if_false] at h
          rcases hi : planInvalidation s (s.step_count + 1) with _ | u6 <;> rw [hi] at h
          · simp only [Except.ok.injEq] at h
            rcases hplan : s.plan with _ | ⟨hd, rest⟩
            · rw [hplan] at hpe; simp at hpe
            · have hhd := planInvalidation_none_toolhead hplan hi hb
              have hx := planExecution_nontool_next (s.step_count + 1)
                (rs.getD 0 defaultReply) hplan hhd
              have hx2 : u.next = some (Json.str hd) := by
                rw [h] at hx; exact hx
              rw [hx2] at hnext
              simp at hnext
              exact absurd hnext hhd
          · simp only [Except.ok.injEq, Prod.mk.injEq] at h
            obtain ⟨hu, -⟩ := h
            rw [← hu] at hnext
            obtain ⟨-, -, hnx⟩ := planInvalidation_shape hi
            rcases hnx with hnx | hnx | hnx <;> rw [hnx] at hnext <;> simp at hnext
      · simp only [Except.ok.injEq, Prod.mk.injEq] at h
        obtain ⟨hu, -⟩ := h
        rw [← hu] at hnext
        obtain ⟨-, -, hfpos, hrep⟩ := rRecovery_shape h3
        exact ⟨hfpos, rFailCap_none h2, hrep hnext⟩
    · simp only [Except.ok.injEq, Prod.mk.injEq] at h
      obtain ⟨hu, -⟩ := h
      rw [← hu] at hnext
      obtain ⟨-, -, hne⟩ := rFailCap_shape h2
      exact absurd hnext hne
  · simp only [Except.ok.injEq, Prod.mk.injEq] at h
    obtain ⟨hu, -⟩ := h
    rw [← hu] at hnext
    exact absurd hnext (rFastPath_budget_next h1 hb)

end Agent

namespace Agent

/-! ## Memory compactor characterization -/

theorem memoryNode_noop {s : RState} (r : String)
    (h : (s.reasoning_steps.length : Int) - (s.last_memory_at : Int) <
      (s.memory_every : Int)) :
    memoryNode s r = Update.empty := by
  unfold memoryNode
  simp [h]

theorem memoryNode_watermark {s : RState} (r : String)
    (hg : ¬ (s.reasoning_steps.length : Int) - (s.last_memory_at : Int) <
      (s.memory_every : Int))
    (hn : ¬ 4 < s.reasoning_steps.length) :
    memoryNode s r = { last_memory_at := some s.reasoning_steps.length } := by
  unfold memoryNode
  have : ¬ s.reasoning_steps.length > 4 := hn
  simp [hg, this]

theorem memoryNode_compact {s : RState} (r : String)
    (hg : ¬ (s.reasoning_steps.length : Int) - (s.last_memory_at : Int) <
      (s.memory_every : Int))
    (hn : 4 < s.reasoning_steps.length) :
    memoryNode s r =
      { memory_summary := some (pyStrip r)
        last_memory_at := some s.reasoning_steps.length
        reasoning_steps :=
          some (s.reasoning_steps.drop (s.reasoning_steps.length - 4)) } := by
  unfold memoryNode
  have h4 : s.reasoning_steps.length > 4 := hn
  have hne : (s.reasoning_steps.take (s.reasoning_steps.length - 4)).isEmpty = false := by
    rcases hsteps : s.reasoning_steps with _ | ⟨a, tl⟩
    · rw [hsteps] at hn; simp at hn
    · rw [hsteps] at hn
      rcases hk : (a :: tl).length - 4 with _ | k
      · exfalso; simp at hn hk; omega
      · rw [List.take_succ_cons]
        simp
  simp [hg, h4, hne]

end Agent

namespace Agent

/-! ## Calculator acceptance characterization -/

/-- The claim-side predicate: an expression built solely from numeric
literals (int/float constants), the six binary operators, and unary
plus/minus. -/
def numericLiteralTree : Ast → Bool
  | .constant (.int _) => true
  | .constant (.float _) => true
  | .constant _ => false
  | .expression b => numericLiteralTree b
  | .binop op l r => !(op = BOp.otherBin) && numericLiteralTree l && numericLiteralTree r
  | .unaryop op e => !(op = UOp.otherUn) && numericLiteralTree e
  | .other => false

/-- What `_eval_node` actually accepts: numeric *or boolean* literals
plus the allowed operators, because `isinstance(True, int)` holds in
Python. -/
def numericOrBoolTree : Ast → Bool
  | .constant c => c.isNumeric
  | .expression b => numericOrBoolTree b
  | .binop op l r => !(op = BOp.otherBin) && numericOrBoolTree l && numericOrBoolTree r
  | .unaryop op e => !(op = UOp.otherUn) && numericOrBoolTree e
  | .other => false

theorem evalNode_numericOrBool : ∀ {t : Ast} {q : ℚ},
    evalNode t = .ok q → numericOrBoolTree t = true := by
  intro t
  induction t with
  | constant c =>
      intro q h
      unfold evalNode at h
      by_cases hc : c.isNumeric = true
      · simpa [numericOrBoolTree] using hc
      · simp [hc] at h
  | expression b ih =>
      intro q h
      unfold evalNode at h
      exact ih h
  | binop op l r ihl ihr =>
      intro q h
      unfold evalNode at h
      cases op <;>
        first
        | (rcases hl : evalNode l with e | a <;> rw [hl] at h
           · simp [Bind.bind, Except.bind] at h
           · rcases hr : evalNode r with e | b <;> rw [hr] at h
             · simp [Bind.bind, Except.bind] at h
             · simp [numericOrBoolTree, ihl hl, ihr hr])
        | simp at h
  | unaryop op e ih =>
      intro q h
      unfold evalNode at h
      cases op <;>
        first
        | (rcases he : evalNode e with er | a <;> rw [he] at h
           · simp [Bind.bind, Except.bind] at h
           · simp [numericOrBoolTree, ih he])
        | simp at h
  | other =>
      intro q h
      simp [evalNode] at h

end Agent

namespace Agent

/-! ## Tool executor classification lemmas -/

theorem classifyAttempt_noreq {tn : Json} (args : Json) (att : Json → Json → Attempt)
    (h : pyTruthy tn = false) :
    classifyAttempt tn args att =
      (⟨.str "(none)", args, .error "No tool requested", false⟩, true,
        some "No tool requested") := by
  unfold classifyAttempt
  simp [h]

theorem classifyAttempt_raised {tn args : Json} {att : Json → Json → Attempt}
    {e : String} (h : pyTruthy tn = true) (ha : att tn args = .raised e) :
    classifyAttempt tn args att = (⟨tn, args, .error e, false⟩, true, some e) := by
  unfold classifyAttempt
  simp [h, ha]

theorem classifyAttempt_notok {tn args : Json} {att : Json → Json → Attempt}
    {r : ToolResult} (h : pyTruthy tn = true) (ha : att tn args = .returned r)
    (hr : r.ok = false) :
    classifyAttempt tn args att = (r, true, some (errOf r)) := by
  unfold classifyAttempt
  simp [h, ha, hr]

theorem classifyAttempt_badnum {tn args : Json} {att : Json → Json → Attempt}
    {r : ToolResult} (h : pyTruthy tn = true) (ha : att tn args = .returned r)
    (hok : r.ok = true) (hc : jeqStr tn "calculator" = true)
    (hv : (match resultVal r with
           | some (.num f) => f.isNan || f.isInf
           | _ => true) = true) :
    (classifyAttempt tn args att).2.1 = true ∧
    (classifyAttempt tn args att).1.ok = false ∧
    ∃ m, (classifyAttempt tn args att).2.2 = some m := by
  unfold classifyAttempt
  simp only [h, Bool.not_true, Bool.false_eq_true, if_false, ha, hok, hc, if_true]
  rcases hrv : resultVal r with _ | v
  · simp
  · rcases v with f | t
    · rw [hrv] at hv
      have hv2 : (f.isNan || f.isInf) = true := hv
      simp [hv2]
    · simp

theorem classifyAttempt_success_shape {tn args : Json} {att : Json → Json → Attempt}
    (h : (classifyAttempt tn args att).2.1 = false) :
    pyTruthy tn = true ∧ (∃ r, att tn args = .returned r) ∧
    (classifyAttempt tn args att).2.2 = none := by
  unfold classifyAttempt at h ⊢
  repeat' split at h
  all_goals simp_all

theorem toolNodeGo_latency (s : RState) (att : Json → Json → Attempt) :
    ((classifyAttempt (reqToolName s) (reqArgs s) att).2.1 = true →
      (toolNodeGo s att).tool_latency_ms = none) ∧
    ((classifyAttempt (reqToolName s) (reqArgs s) att).2.1 = false →
      ∀ sp, getToolE (reqToolName s) = .ok sp →
        (toolNodeGo s att).tool_latency_ms = some (s.tool_latency_ms + sp.latency_ms)) := by
  constructor
  · intro hf
    unfold toolNodeGo
    simp [hf]
  · intro hf sp hsp
    unfold toolNodeGo
    have hp := (classifyAttempt_success_shape hf).1
    simp [hf, hp, hsp]

end Agent

namespace Agent

/-! ## Concrete scenarios

Initial states follow the shape `main.py` builds (entry `next = THINK`,
zeroed counters, positive caps); oracles supply concrete LLM replies
together with the `json.loads` outcome a real decoder would produce on
them. -/

/-- An initial state as `main.py` builds it, with the step/tool-call and
compaction parameters as arguments. -/
def mkInit (question : String) (max_steps tool_call_cap memory_every : Nat) : RState :=
  { question := question, next := .str "THINK", step_count := 0
    max_steps := max_steps, reasoning_steps := [], knowledge := []
    retrieve_count := 0, retrieve_cap := 1
    tool_request := none, repaired_tool_request := none, tool_results := []
    tool_fail_count := 0, tool_fail_cap := 4, last_error := none
    think_count := 0, memory_summary := "", memory_every := memory_every
    last_memory_at := 0, max_tool_risk := .medium, plan := []
    tool_calls := 0, tool_call_cap := tool_call_cap
    tool_latency_ms := 0, tool_latency_cap_ms := 10000 }

/-- An `ast.parse` oracle for turns that never reach the calculator. -/
def apNone : AstParse := fun _ => none

/-- Turn oracle: plan creation fails (non-JSON reply), then the fallback
decision routes to an unregistered tool. -/
def oFallbackBadTool : TOracle :=
  { reason := [⟨"gibberish", none⟩,
      ⟨"\x7b\x22next\x22:\x22TOOL\x22,\x22tool\x22:\x22nosuch\x22,\x22args\x22:\x7b\x7d\x7d",
        some (.obj [("next", .str "TOOL"), ("tool", .str "nosuch"), ("args", .obj [])])⟩]
    think := ⟨"", none⟩, memorySummary := "", aparse := apNone }

/-- Turn oracle: the THINK repair reply is valid JSON naming a repaired
calculator call. -/
def oThinkRepairs : TOracle :=
  { reason := []
    think := ⟨"\x7b\x22tool\x22:\x22calculator\x22,\x22args\x22:\x7b\x22expression\x22:\x222+2\x22\x7d\x7d",
      some (.obj [("tool", .str "calculator"),
                  ("args", .obj [("expression", .str "2+2")])])⟩
    memorySummary := "", aparse := apNone }

/-- Turn oracle: the THINK repair reply is not JSON, so no repaired
request is ever produced. -/
def oThinkNoRepair : TOracle :=
  { reason := [], think := ⟨"still broken, cannot fix", none⟩
    memorySummary := "", aparse := apNone }

/-- C1 scenario: tool-call cap 1; the only tool call fails; the repair
cycle then routes to TOOL with the budget already exhausted. -/
def c1init : RState := mkInit "What is an agent?" 10 1 100

def c1s2 : RState :=
  (runStar c1init [oFallbackBadTool, oThinkRepairs]).getD default

/-- C4 scenario: `max_steps = 2`; the failed tool call is followed by an
endless REASON/THINK repair loop that never checks `max_steps`. -/
def c4init : RState := mkInit "What is an agent?" 2 5 100

/-- C5 scenario: `max_tool_risk = low`; the LLM plans `["TOOL"]` and then
names the high-risk `web_lookup_stub`, which the code accepts unchecked. -/
def c5init : RState :=
  { mkInit "What is an agent?" 12 5 100 with max_tool_risk := .low }

/-- Turn oracle: plan creation returns `{"plan": ["TOOL"]}`. -/
def oPlanTool : TOracle :=
  { reason := [⟨"\x7b\x22plan\x22:[\x22TOOL\x22]\x7d",
      some (.obj [("plan", .arr [.str "TOOL"])])⟩]
    think := ⟨"let me think about this", none⟩, memorySummary := "", aparse := apNone }

/-- The tool-selection reply naming the policy-excluded high-risk tool. -/
def c5sel : List Reply :=
  [⟨"\x7b\x22tool\x22:\x22web_lookup_stub\x22,\x22args\x22:\x7b\x22query\x22:\x22agents\x22\x7d\x7d",
    some (.obj [("tool", .str "web_lookup_stub"),
                ("args", .obj [("query", .str "agents")])])⟩]

/-- Turn oracle for the C5 selection turn. -/
def oSelectWeb : TOracle :=
  { reason := c5sel, think := ⟨"", none⟩, memorySummary := "", aparse := apNone }

def c5s1 : RState := (runStar c5init [oPlanTool]).getD default

def c5s2 : RState := (runStar c5init [oPlanTool, oSelectWeb]).getD default

/-- A neutral non-terminal state used for per-invocation counterexamples
(fresh run, non-arithmetic question). -/
def c2state : RState := mkInit "What is an agent?" 12 5 100

/-- The update stored by plan creation on `c2state` when the LLM replies
`{"plan": ["THINK", "ANSWER"]}`. -/
def c2planReply : List Reply :=
  [⟨"\x7b\x22plan\x22:[\x22THINK\x22,\x22ANSWER\x22]\x7d",
    some (.obj [("plan", .arr [.str "THINK", .str "ANSWER"])])⟩]

def c2u : Update :=
  match reasonNode c2state c2planReply with
  | .ok (u, _) => u
  | .error _ => Update.empty

/-- Replies driving `c2state` to the LLM fallback, which then returns
`{"next": "PONDER"}` — not a defined phase. -/
def c2garbageNext : List Reply :=
  [⟨"gibberish", none⟩,
   ⟨"\x7b\x22next\x22:\x22PONDER\x22\x7d", some (.obj [("next", .str "PONDER")])⟩]

def c2u2 : Update :=
  match reasonNode c2state c2garbageNext with
  | .ok (u, _) => u
  | .error _ => Update.empty

/-- Replies for the C3 counterexample: plan creation parses to nothing,
then the fallback makes a second LLM call. -/
def c3replies : List Reply := [⟨"gibberish", none⟩, ⟨"more gibberish", none⟩]

/-- C6 repair-mode state: an active tool error. -/
def c6state : RState :=
  { mkInit "What is an agent?" 12 5 100 with last_error := some "boom" }

/-- `ast.parse` oracle for the literal `"True"`. -/
def apTrue : AstParse :=
  fun s => if s = "True" then some (.constant (.bool true)) else none

end Agent

namespace Agent

/-! ## Claim theorems -/

theorem mkInit_valid (q : String) (ms cap me : Nat)
    (h1 : 1 ≤ ms) (h2 : 1 ≤ cap) (h3 : 1 ≤ me) :
    validInit (mkInit q ms cap me) :=
  ⟨rfl, rfl, h1, rfl, rfl, rfl, by simp [mkInit], rfl, rfl, rfl, rfl,
   by simp [mkInit], rfl, rfl, rfl, h3, rfl, rfl, rfl, h2, rfl, by simp [mkInit]⟩

theorem c5init_valid : validInit c5init :=
  ⟨rfl, rfl, by decide, rfl, rfl, rfl, by decide, rfl, rfl, rfl, rfl, by decide,
   rfl, rfl, rfl, by decide, rfl, rfl, rfl, by decide, rfl, by decide⟩

/-- The update of the reason invocation at `c1s2` (any replies; no LLM
call happens on the recovery path). -/
def c1u : Update :=
  match reasonNode c1s2 [] with
  | .ok (u, _) => u
  | .error _ => Update.empty

/-- C1, counterexample: a reachable state whose tool-call budget is
exhausted (`tool_calls = tool_call_cap = 1` after the failed call), at
which the very next Orchestrator invocation routes to TOOL through the
repaired-request recovery path.  This falsifies the claim that once
`tool_calls ≥ tool_call_cap` no subsequent invocation sets
`next = TOOL`. -/
theorem c1_budget_tool_counterexample :
    Reach c1s2 ∧
    c1s2.tool_call_cap ≤ c1s2.tool_calls ∧
    budgetExhausted c1s2 = true ∧
    reasonNode c1s2 [] = .ok (c1u, 0) ∧
    c1u.next = some (Json.str "TOOL") := by
  refine ⟨?_, by decide, rfl, rfl, rfl⟩
  exact reach_runStar [oFallbackBadTool, oThinkRepairs]
    (Reach.init c1init (mkInit_valid _ _ _ _ (by decide) (by decide) (by decide))) rfl

/-- C1 (amended): for every reachable state with an exhausted tool
budget, a completed Orchestrator invocation routes to TOOL only through
the failure-recovery path — an active failure count below the cap with a
pending (truthy) `repaired_tool_request`, which the code consumes
without re-checking the budget; the fast path, plan invalidation and
execution, the residual arithmetic check, and the LLM fallback never
route to TOOL once a cap is reached. -/
theorem c1_budget_tool_amended {s : RState} {rs : List Reply} {u : Update} {n : Nat}
    (hreach : Reach s) (hb : budgetExhausted s = true)
    (h : reasonNode s rs = .ok (u, n))
    (hnext : u.next = some (Json.str "TOOL")) :
    0 < s.tool_fail_count ∧ s.tool_fail_count < s.tool_fail_cap ∧
      repairedTruthy s = true :=
  reason_budget_repaired hreach hb h hnext

theorem c1_budget_tool_amended_witness :
    0 < c1s2.tool_fail_count ∧ c1s2.tool_fail_count < c1s2.tool_fail_cap ∧
      repairedTruthy c1s2 = true :=
  c1_budget_tool_amended
    (reach_runStar [oFallbackBadTool, oThinkRepairs]
      (Reach.init c1init (mkInit_valid _ _ _ _ (by decide) (by decide) (by decide))) rfl)
    rfl (rfl : reasonNode c1s2 [] = .ok (c1u, 0)) rfl

/-- C2, counterexample: the plan-creation return (`lg_nodes.py` lines
602-608) advances `step_count` but does not set `next` even though the
run is not terminal (the stale `next = THINK` from the initial state does
the routing), and the fallback return copies the LLM's `next` value
verbatim, here the undefined phase name `PONDER`. -/
theorem c2_sets_next_counterexample :
    reasonNode c2state c2planReply = .ok (c2u, 1) ∧
    c2u.step_count = some 1 ∧
    c2u.next = none ∧
    (applyU c2state c2u).next = Json.str "THINK" ∧
    reasonNode c2state c2garbageNext = .ok (c2u2, 2) ∧
    c2u2.next = some (Json.str "PONDER") :=
  ⟨rfl, rfl, rfl, rfl, rfl, rfl⟩

/-- C2 (amended): every completed Orchestrator invocation either (a)
advances `step_count` by exactly 1 and sets `next` (copied verbatim from
the LLM reply on the fallback path, so a defined phase only when the
reply names one), or (b) advances `step_count` by exactly 1 and writes
the plan (creation, or the retrieve-cap / failure-recovery invalidation
branches) while leaving `next` unchanged, or (c) is the stale-repair
cleanup, which returns only `repaired_tool_request = None` and leaves
both `next` and `step_count` unchanged. -/
theorem c2_sets_next_amended {s : RState} {rs : List Reply} {u : Update} {n : Nat}
    (h : reasonNode s rs = .ok (u, n)) :
    (u.step_count = some (s.step_count + 1) ∧ u.next.isSome) ∨
    (u.step_count = some (s.step_count + 1) ∧ u.next = none ∧ u.plan.isSome) ∨
    u = staleCleanupUpd :=
  reason_update_shape h

theorem c2_sets_next_amended_witness :
    (c2u.step_count = some (c2state.step_count + 1) ∧ c2u.next.isSome) ∨
    (c2u.step_count = some (c2state.step_count + 1) ∧ c2u.next = none ∧
      c2u.plan.isSome) ∨
    c2u = staleCleanupUpd :=
  c2_sets_next_amended (rfl : reasonNode c2state c2planReply = .ok (c2u, 1))

/-- The number of `llm.invoke` calls a completed reason invocation makes. -/
def reasonCallCount (s : RState) (rs : List Reply) : Nat :=
  match reasonNode s rs with
  | .ok (_, n) => n
  | .error _ => 0

/-- C3, counterexample: on a fresh state whose plan-creation reply fails
to parse, the same invocation falls through to the LLM fallback and makes
a second Reasoning call — exactly the situation the claim says makes no
second call. -/
theorem c3_single_call_counterexample :
    c2state.plan = [] ∧
    reasonCallCount c2state c3replies = 2 :=
  ⟨rfl, rfl⟩

/-- C3 (amended): a completed Orchestrator invocation makes at most two
Reasoning calls, and it makes a second one exactly in the fallthrough the
claim excludes: the incoming plan is empty and the plan-creation reply
parses/filters to an empty plan, after which the LLM fallback issues one
more call.  All other invocations make at most one call. -/
theorem c3_single_call_amended {s : RState} {rs : List Reply} {u : Update} {n : Nat}
    (h : reasonNode s rs = .ok (u, n)) :
    n ≤ 2 ∧ (n = 2 → s.plan = [] ∧
      parsePlan (rs.getD 0 defaultReply) = .ok []) :=
  reason_call_count h

theorem c3_single_call_amended_witness :
    (2 : Nat) ≤ 2 ∧ ((2 : Nat) = 2 → c2state.plan = [] ∧
      parsePlan (c3replies.getD 0 defaultReply) = .ok []) :=
  c3_single_call_amended (rfl :
    reasonNode c2state c3replies = .ok (
      match reasonNode c2state c3replies with
      | .ok (u, _) => u
      | .error _ => Update.empty, 2))

end Agent

namespace Agent

/-- C4: on a valid initial state with `max_steps = 2`, a failed tool call
followed by a repair cycle whose THINK step never yields a repaired
request keeps the run in a REASON → THINK → MEMORY loop: no terminal
phase is reached within `max_steps` invocations — nor within six — and
after six invocations `step_count = 6` already exceeds `max_steps` while
`0 < tool_fail_count < tool_fail_cap` and `repaired_tool_request` is
still absent.  The `max_steps` guard sits below the failure-recovery
branch in `reason_node`, so it is never consulted on this path, although
the code documents it as the guard that prevents infinite loops. -/
theorem c4_termination_violated :
    validInit c4init ∧
    c4init.max_steps = 2 ∧
    ([oFallbackBadTool, oThinkNoRepair] : List TOracle).length = c4init.max_steps ∧
    reachesTerminalWithin c4init [oFallbackBadTool, oThinkNoRepair] = false ∧
    reachesTerminalWithin c4init
      [oFallbackBadTool, oThinkNoRepair, oThinkNoRepair, oThinkNoRepair,
       oThinkNoRepair, oThinkNoRepair] = false ∧
    (runStar c4init [oFallbackBadTool, oThinkNoRepair, oThinkNoRepair,
       oThinkNoRepair, oThinkNoRepair, oThinkNoRepair]).map
      (fun s => (s.step_count, jeqStr s.next "THINK", s.tool_fail_count,
        s.tool_fail_cap, s.repaired_tool_request)) =
      some (6, true, 1, 4, none) :=
  ⟨mkInit_valid _ _ _ _ (by decide) (by decide) (by decide), rfl, rfl, rfl, rfl, rfl⟩

/-- The update of the reason invocation at `c5s1` under the
`web_lookup_stub` selection reply. -/
def c5u : Update :=
  match reasonNode c5s1 c5sel with
  | .ok (u, _) => u
  | .error _ => Update.empty

/-- C5: with `max_tool_risk = low`, the reachable plan-execution state
`c5s1` (plan `["TOOL"]`) filters the high-risk `web_lookup_stub` out of
the catalog shown to the LLM — yet when the LLM's reply names that tool
anyway, the code stores it in `tool_request` unchecked, routes to TOOL,
and the executor runs it successfully.  The declared risk (high, rank 2)
exceeds the run's `max_tool_risk` (low, rank 0), falsifying the claim
that no tool above `max_tool_risk` is ever selected and executed. -/
theorem c5_risk_policy_violated :
    Reach c5s1 ∧
    c5s1.max_tool_risk = Risk.low ∧
    reasonNode c5s1 c5sel = .ok (c5u, 1) ∧
    c5u.next = some (Json.str "TOOL") ∧
    c5u.tool_request = some (some [("tool", Json.str "web_lookup_stub"),
      ("args", Json.obj [("query", Json.str "agents")])]) ∧
    getToolE (Json.str "web_lookup_stub") = .ok webLookupSpec ∧
    webLookupSpec.risk = Risk.high ∧
    riskRank Risk.low < riskRank Risk.high ∧
    (toolCatalog c5s1).all (fun t => t.name ≠ "web_lookup_stub") = true ∧
    runStar c5init [oPlanTool, oSelectWeb] = some c5s2 ∧
    (c5s2.tool_results.getLast?).map (fun r => (r.tool, r.ok)) =
      some (Json.str "web_lookup_stub", true) := by
  refine ⟨?_, rfl, rfl, rfl, rfl, rfl, rfl, by decide, rfl, rfl, rfl⟩
  exact reach_runStar [oPlanTool] (Reach.init c5init c5init_valid) rfl

/-- C6: structured-reply parsing can raise.  In `think_node` repair mode
the reply `3` is valid JSON, so `json.loads` succeeds inside the `try`,
but the following `repaired.get("tool")` outside it raises
`AttributeError`; the fallback router's `decision.get("next", "STOP")`
(line 860) raises the same way; and a reply `{"plan": 5}` makes the plan
filter iterate an `int`, raising `TypeError` (line 600).  All three
escape the node, contradicting the claim that these parsers never raise
and always recover with a deterministic fallback. -/
theorem c6_parse_crashes :
    errTruthy c6state.last_error = true ∧
    thinkNode c6state ⟨"3", some (Json.num 3)⟩ =
      .error (.attributeError "object has no attribute get") ∧
    reasonNode c2state [⟨"gibberish", none⟩, ⟨"3", some (Json.num 3)⟩] =
      .error (.attributeError "object has no attribute get") ∧
    reasonNode c2state
      [⟨"\x7b\x22plan\x22:5\x7d", some (.obj [("plan", Json.num 5)])⟩] =
      .error (.typeError "int object is not iterable") :=
  ⟨rfl, rfl, rfl, rfl⟩

end Agent

namespace Agent

/-- C7: the Tool Executor is total (a plain function on every state and
every handler behaviour) and classifies as specified: an absent or empty
request synthesizes a failed result with the fixed message "No tool
requested"; a raised fault (unknown tool lookup included) is converted
into a failed result carrying its description, never propagated; a
handler-reported `ok=false` is a failure; a calculator result that is
not a number, or is NaN/infinite, is a failure with the result's `ok`
flipped to false; every failure increments `tool_fail_count` and sets
`last_error`; every success resets the counter to 0 and clears
`last_error`; the classified result is appended and the request cleared
on every path. -/
theorem c7_executor_classification (s : RState) (att : Json → Json → Attempt) :
    (toolNodeGo s att).tool_results =
      some (s.tool_results ++ [(classifyAttempt (reqToolName s) (reqArgs s) att).1]) ∧
    (toolNodeGo s att).tool_request = some none ∧
    (pyTruthy (reqToolName s) = false →
      (classifyAttempt (reqToolName s) (reqArgs s) att).1 =
        ⟨.str "(none)", reqArgs s, .error "No tool requested", false⟩ ∧
      (toolNodeGo s att).tool_fail_count = some (s.tool_fail_count + 1) ∧
      (toolNodeGo s att).last_error = some (some "No tool requested")) ∧
    (∀ e, pyTruthy (reqToolName s) = true →
      att (reqToolName s) (reqArgs s) = .raised e →
      (classifyAttempt (reqToolName s) (reqArgs s) att).1 =
        ⟨reqToolName s, reqArgs s, .error e, false⟩ ∧
      (toolNodeGo s att).tool_fail_count = some (s.tool_fail_count + 1) ∧
      (toolNodeGo s att).last_error = some (some e)) ∧
    (∀ r, pyTruthy (reqToolName s) = true →
      att (reqToolName s) (reqArgs s) = .returned r → r.ok = false →
      (toolNodeGo s att).tool_fail_count = some (s.tool_fail_count + 1) ∧
      (toolNodeGo s att).last_error = some (some (errOf r))) ∧
    (∀ r, pyTruthy (reqToolName s) = true →
      att (reqToolName s) (reqArgs s) = .returned r → r.ok = true →
      jeqStr (reqToolName s) "calculator" = true →
      (match resultVal r with
       | some (.num f) => f.isNan || f.isInf
       | _ => true) = true →
      (toolNodeGo s att).tool_fail_count = some (s.tool_fail_count + 1) ∧
      (∃ m, (toolNodeGo s att).last_error = some (some m)) ∧
      (classifyAttempt (reqToolName s) (reqArgs s) att).1.ok = false) ∧
    ((classifyAttempt (reqToolName s) (reqArgs s) att).2.1 = false →
      (toolNodeGo s att).tool_fail_count = some 0 ∧
      (toolNodeGo s att).last_error = some none) := by
  obtain ⟨hres, hfail, hcalls, herr, hreq⟩ := toolNodeGo_fields s att
  refine ⟨hres, hreq, ?_, ?_, ?_, ?_, ?_⟩
  · intro h0
    have hcl := classifyAttempt_noreq (reqArgs s) att h0
    exact ⟨by rw [hcl], by rw [hfail, hcl]; try rfl, by rw [herr, hcl]; try rfl⟩
  · intro e h0 ha
    have hcl := classifyAttempt_raised h0 ha
    exact ⟨by rw [hcl], by rw [hfail, hcl]; try rfl, by rw [herr, hcl]; try rfl⟩
  · intro r h0 ha hok
    have hcl := classifyAttempt_notok h0 ha hok
    exact ⟨by rw [hfail, hcl]; try rfl, by rw [herr, hcl]; try rfl⟩
  · intro r h0 ha hok hc hv
    obtain ⟨hb1, hb2, m, hb3⟩ := classifyAttempt_badnum h0 ha hok hc hv
    exact ⟨by rw [hfail, hb1]; try rfl, ⟨m, by rw [herr, hb3]⟩, hb2⟩
  · intro hsucc
    have hnone := (classifyAttempt_success_shape hsucc).2.2
    exact ⟨by rw [hfail, hsucc]; try rfl, by rw [herr, hnone]⟩

/-- A concrete state with an empty tool request, for the C7 witness. -/
def c7state : RState := { mkInit "q" 5 5 5 with tool_request := some [] }

theorem c7_executor_classification_witness :
    (toolNodeGo c7state (runAttempt apNone)).tool_fail_count =
      some (c7state.tool_fail_count + 1) ∧
    (toolNodeGo c7state (runAttempt apNone)).last_error =
      some (some "No tool requested") :=
  ⟨((c7_executor_classification c7state (runAttempt apNone)).2.2.1 rfl).2.1,
   ((c7_executor_classification c7state (runAttempt apNone)).2.2.1 rfl).2.2⟩

/-- C8: every Tool Executor invocation increments `tool_calls` by
exactly 1; `tool_latency_ms` grows by the executed tool's declared
`latency_ms` exactly on success (lookup of the executed tool's spec
succeeds on every success path), while a failed attempt omits the key,
leaving the running total unchanged after the merge. -/
theorem c8_budget_counters (ap : AstParse) (s : RState) :
    (toolNode ap s).tool_calls = some (s.tool_calls + 1) ∧
    ((toolNode ap s).tool_fail_count = some 0 →
      ∃ sp, getToolE (reqToolName s) = .ok sp ∧
        (toolNode ap s).tool_latency_ms = some (s.tool_latency_ms + sp.latency_ms)) ∧
    ((toolNode ap s).tool_fail_count ≠ some 0 →
      (toolNode ap s).tool_latency_ms = none ∧
      (applyU s (toolNode ap s)).tool_latency_ms = s.tool_latency_ms) := by
  unfold toolNode
  obtain ⟨hres, hfail, hcalls, herr, hreq⟩ := toolNodeGo_fields s (runAttempt ap)
  refine ⟨hcalls, ?_, ?_⟩
  · intro hzero
    have hcf : (classifyAttempt (reqToolName s) (reqArgs s) (runAttempt ap)).2.1 = false := by
      by_cases hcc : (classifyAttempt (reqToolName s) (reqArgs s) (runAttempt ap)).2.1 = true
      · rw [hfail, hcc] at hzero
        simp at hzero
      · simpa using hcc
    obtain ⟨hp, ⟨r, hr⟩, -⟩ := classifyAttempt_success_shape hcf
    have hsp : ∃ sp, getToolE (reqToolName s) = .ok sp := by
      unfold runAttempt at hr
      rcases hg : getToolE (reqToolName s) with e | sp <;> rw [hg] at hr
      · cases hr
      · exact ⟨sp, rfl⟩
    obtain ⟨sp, hspE⟩ := hsp
    exact ⟨sp, hspE, (toolNodeGo_latency s (runAttempt ap)).2 hcf sp hspE⟩
  · intro hnz
    have hct : (classifyAttempt (reqToolName s) (reqArgs s) (runAttempt ap)).2.1 = true := by
      by_cases hcc : (classifyAttempt (reqToolName s) (reqArgs s) (runAttempt ap)).2.1 = true
      · exact hcc
      · exfalso
        apply hnz
        rw [hfail, eq_false_of_ne_true hcc]
        rfl
    have hlat := (toolNodeGo_latency s (runAttempt ap)).1 hct
    exact ⟨hlat, by simp [applyU, hlat]⟩

theorem c8_budget_counters_witness :
    (toolNode apNone c7state).tool_calls = some 1 ∧
    ((toolNode apNone c7state).tool_fail_count ≠ some 0 →
      (toolNode apNone c7state).tool_latency_ms = none ∧
      (applyU c7state (toolNode apNone c7state)).tool_latency_ms =
        c7state.tool_latency_ms) :=
  ⟨(c8_budget_counters apNone c7state).1, (c8_budget_counters apNone c7state).2.2⟩

end Agent

namespace Agent

theorem memoryNode_second_empty (s : RState) (r r' : String)
    (hev : 1 ≤ s.memory_every) :
    memoryNode (applyU s (memoryNode s r)) r' = Update.empty := by
  by_cases hg : (s.reasoning_steps.length : Int) - (s.last_memory_at : Int) <
      (s.memory_every : Int)
  · rw [memoryNode_noop r hg, applyU_empty]
    exact memoryNode_noop r' hg
  · by_cases hn : 4 < s.reasoning_steps.length
    · rw [memoryNode_compact r hg hn]
      apply memoryNode_noop
      simp only [applyU, Option.getD_some, Option.getD_none]
      rw [List.length_drop]
      omega
    · rw [memoryNode_watermark r hg hn]
      apply memoryNode_noop
      simp only [applyU, Option.getD_some, Option.getD_none]
      omega

/-- C9: with `memory_every ≥ 1`, invoking the Memory Compactor twice in
succession with no log entries appended in between leaves the state
unchanged on the second call; and whenever compaction fires with more
than 4 log entries, the log is replaced by exactly its last 4 entries
and `last_memory_at` is set to the pre-compaction log length. -/
theorem c9_memory_idempotent_compaction (s : RState) (r r' : String) :
    (1 ≤ s.memory_every →
      applyU (applyU s (memoryNode s r))
        (memoryNode (applyU s (memoryNode s r)) r') =
      applyU s (memoryNode s r)) ∧
    (4 < s.reasoning_steps.length →
      (s.memory_every : Int) ≤
        (s.reasoning_steps.length : Int) - (s.last_memory_at : Int) →
      (memoryNode s r).reasoning_steps =
        some (s.reasoning_steps.drop (s.reasoning_steps.length - 4)) ∧
      (s.reasoning_steps.drop (s.reasoning_steps.length - 4)).length = 4 ∧
      (memoryNode s r).last_memory_at = some s.reasoning_steps.length) := by
  constructor
  · intro hev
    rw [memoryNode_second_empty s r r' hev, applyU_empty]
  · intro hn hev
    have hg : ¬ (s.reasoning_steps.length : Int) - (s.last_memory_at : Int) <
        (s.memory_every : Int) := by omega
    rw [memoryNode_compact r hg hn]
    refine ⟨rfl, ?_, rfl⟩
    rw [List.length_drop]
    omega

/-- A concrete 5-entry log with an overdue compaction, for the C9
witness. -/
def c9state : RState :=
  { mkInit "q" 12 5 1 with reasoning_steps := ["a", "b", "c", "d", "e"] }

theorem c9_memory_idempotent_compaction_witness :
    (applyU (applyU c9state (memoryNode c9state "sum"))
        (memoryNode (applyU c9state (memoryNode c9state "sum")) "sum2") =
      applyU c9state (memoryNode c9state "sum")) ∧
    ((memoryNode c9state "sum").reasoning_steps =
        some (c9state.reasoning_steps.drop (c9state.reasoning_steps.length - 4)) ∧
      (c9state.reasoning_steps.drop (c9state.reasoning_steps.length - 4)).length = 4 ∧
      (memoryNode c9state "sum").last_memory_at =
        some c9state.reasoning_steps.length) :=
  ⟨(c9_memory_idempotent_compaction c9state "sum" "sum2").1 (by decide),
   (c9_memory_idempotent_compaction c9state "sum" "sum2").2 (by decide) (by decide)⟩

end Agent

namespace Agent

/-- C10, counterexample: `ast.parse("True")` yields a boolean-literal
constant, which is not a numeric literal, yet
`isinstance(True, (int, float))` holds in Python (bool is an int
subclass), so `_eval_node` accepts it and the calculator returns
`ok = true` with result `float(True) = 1.0` — contradicting the claim
that `ok` is true only for expressions built solely from numeric
literals and the arithmetic operators. -/
theorem c10_calculator_counterexample :
    apTrue "True" = some (Ast.constant (.bool true)) ∧
    numericLiteralTree (Ast.constant (.bool true)) = false ∧
    (calculator apTrue (Json.str "True")).ok = true ∧
    (calculator apTrue (Json.str "True")).output =
      .result (.num (.finite 1)) :=
  ⟨rfl, rfl, rfl, rfl⟩

/-- C10 (amended): the calculator handler is total (a plain function of
the parse outcome) and always returns the standard result record for the
requested expression; `ok = true` only when the argument is a string
whose parse succeeds with a tree built solely from numeric *or boolean*
literals (Python `bool` being an `int` subclass) and the allowed
operators, in which case the output carries a float result; every
`ok = false` outcome carries an error message in the output. -/
theorem c10_calculator_amended (ap : AstParse) (v : Json) :
    (calculator ap v).tool = Json.str "calculator" ∧
    (calculator ap v).input = Json.obj [("expression", v)] ∧
    ((calculator ap v).ok = true →
      (∃ s body, v = Json.str s ∧ ap s = some body ∧
        numericOrBoolTree body = true) ∧
      ∃ q, (calculator ap v).output = .result (.num (.finite q))) ∧
    ((calculator ap v).ok = false →
      ∃ m, (calculator ap v).output = .error m) := by
  rcases v with _ | b | q0 | sv | xs | kvs
  case str =>
    rcases hp : ap sv with _ | body
    · refine ⟨by simp [calculator, hp], by simp [calculator, hp], ?_, ?_⟩
      · intro h
        simp [calculator, hp] at h
      · intro _
        exact ⟨"invalid syntax", by simp [calculator, hp]⟩
    · rcases he : evalNode (.expression body) with e | q
      · refine ⟨by simp [calculator, hp, he], by simp [calculator, hp, he], ?_, ?_⟩
        · intro h
          simp [calculator, hp, he] at h
        · intro _
          exact ⟨e, by simp [calculator, hp, he]⟩
      · refine ⟨by simp [calculator, hp, he], by simp [calculator, hp, he], ?_, ?_⟩
        · intro _
          exact ⟨⟨sv, body, rfl, hp, evalNode_numericOrBool he⟩, q,
            by simp [calculator, hp, he]⟩
        · intro h
          simp [calculator, hp, he] at h
  all_goals
    exact ⟨rfl, rfl, by intro h; simp [calculator] at h, fun _ => ⟨_, rfl⟩⟩

theorem c10_calculator_amended_witness :
    ((∃ s body, Json.str "True" = Json.str s ∧ apTrue s = some body ∧
        numericOrBoolTree body = true) ∧
      ∃ q, (calculator apTrue (Json.str "True")).output =
        .result (.num (.finite q))) ∧
    (∃ m, (calculator apTrue (Json.str "nope")).output = .error m) :=
  ⟨(c10_calculator_amended apTrue (Json.str "True")).2.2.1 rfl,
   (c10_calculator_amended apTrue (Json.str "nope")).2.2.2 rfl⟩

end Agent
